import Mathlib

/-!
Verification development for the PDF engine in `keynote/pdf.py`.

The Python source is embedded shallowly: byte strings (Python `str` holding
latin-1 decoded bytes) become `List Nat` (each element a byte value 0..255),
stateful methods become explicit state passing, loops become fueled
recursion (a distinguished `PyErr.fuel` marks fuel exhaustion; all concrete
evaluations below use ample fuel), and fallible code returns
`Except PyErr α`.  Python exceptions are modelled by the `PyErr` type;
an exception raised after partial in-place mutation loses that partial
state in this pure model (the places where this matters are noted at the
definitions involved; no theorem below depends on such a discarded
mutation).  `warnings.warn` calls are non-fatal in the source; they are
modelled only where a claim mentions them (`Reader.read_stream` returns
the list of warning messages it issued) and dropped elsewhere.
-/

namespace Pdf

set_option maxRecDepth 1000000
set_option maxHeartbeats 2000000

/-- Python exception kinds raised by the embedded code.  `malformed` is the
source's own `PDFMalformedException`; the others are builtin Python
exceptions.  `fuel` is not a Python exception: it marks exhausted recursion
fuel in this embedding and is never produced in any run appearing in a
theorem below. -/
inductive PyErr where
  | malformed (msg : String)
  | keyError (key : String)
  | valueError (msg : String)
  | nameError (msg : String)
  | typeError (msg : String)
  | indexError
  | attributeError (msg : String)
  | fuel
deriving DecidableEq, Repr

/-- Byte string: the latin-1 decoded `str` values the Python code works on. -/
abbrev ByteStr := List Nat

/-- Decode a Lean string literal into byte values (all source literals are
ASCII, so `Char.toNat` is the latin-1 byte value). -/
def bs (s : String) : ByteStr := s.data.map Char.toNat

/-- Python `s[i]` for a nonnegative index: `IndexError` when out of range
(no use site below indexes with a negative literal). -/
def pyIndex (l : ByteStr) (i : Nat) : Except PyErr Nat :=
  match l.get? i with
  | some c => .ok c
  | none => .error .indexError

/-- Python slice `l[a:b]` with nonnegative bounds (clamping, never raising). -/
def pySlice (l : ByteStr) (a b : Nat) : ByteStr :=
  (l.take b).drop a

/-- Python slice `l[a:b]` where the bounds are ints: a negative bound counts
from the end, as in Python. -/
def pySliceI (l : ByteStr) (a b : Int) : ByteStr :=
  let norm : Int → Nat := fun i => if i < 0 then (i + l.length).toNat else i.toNat
  pySlice l (norm a) (norm b)

/-- Python slice `l[a:]`. -/
def pyDrop (l : ByteStr) (a : Nat) : ByteStr := l.drop a

/-- Scan helper for `str.find`: first index at or after the cursor where
`sub` occurs; structural recursion on the remaining suffix. -/
def findGo (sub : ByteStr) (i : Nat) : ByteStr → Int
  | [] => if sub.isPrefixOf ([] : ByteStr) then (i : Int) else -1
  | c :: rest =>
      if sub.isPrefixOf (c :: rest) then (i : Int)
      else findGo sub (i + 1) rest

/-- Python `l.find(sub, start)`; `start` may be negative (counted from the
end) as in Python; result `-1` when absent.  All `sub` arguments in the
source are nonempty. -/
def pyFind (l : ByteStr) (sub : ByteStr) (start : Int) : Int :=
  let s : Nat := if start < 0 then (start + l.length).toNat else start.toNat
  if s > l.length then -1
  else findGo sub s (l.drop s)

/-- Python `l.rfind(sub, start, stop)`: greatest index `i` with
`start ≤ i` and `i + sub.length ≤ stop` at which `sub` occurs, else `-1`. -/
def pyRfind (l : ByteStr) (sub : ByteStr) (start stop : Nat) : Int :=
  let cand := (List.range (l.length + 1)).filter
    (fun i => decide (start ≤ i) && decide (i + sub.length ≤ stop)
      && sub.isPrefixOf (l.drop i))
  match cand.getLast? with
  | some i => (i : Int)
  | none => -1

/-- The characters Python `str.strip()` removes: space, tab, newline,
carriage return, vertical tab, form feed (not NUL). -/
def pyStripChar (c : Nat) : Bool :=
  c == 32 || c == 9 || c == 10 || c == 13 || c == 11 || c == 12

/-- Python `str.strip()`. -/
def pyStrip (l : ByteStr) : ByteStr :=
  ((l.dropWhile pyStripChar).reverse.dropWhile pyStripChar).reverse

/-- Python `str.isdigit()` restricted to the byte strings at hand: nonempty
and all ASCII digits. -/
def pyIsdigit (l : ByteStr) : Bool :=
  !l.isEmpty && l.all (fun c => 48 ≤ c && c ≤ 57)

/-- Digits of a byte string read as a natural number (callers check
digit-ness first). -/
def digitsToNat (l : ByteStr) : Nat :=
  l.foldl (fun acc c => acc * 10 + (c - 48)) 0

/-- Python `int(s)`: strip whitespace, optional sign, at least one ASCII
digit (the underscore grouping of newer Python never occurs in the inputs
at hand); `none` models the `ValueError`. -/
def pyInt (l : ByteStr) : Option Int :=
  let t := pyStrip l
  match t with
  | [] => none
  | c :: rest =>
      if c == 45 then
        if pyIsdigit rest then some (-(digitsToNat rest : Int)) else none
      else if c == 43 then
        if pyIsdigit rest then some (digitsToNat rest : Int) else none
      else
        if pyIsdigit t then some (digitsToNat t : Int) else none

/-- The character class of the module's `WHITESPACE` regex and of the
`WHITESPACECHARS` constant: tab, newline, carriage return, form feed,
NUL, space (the same six characters in both). -/
def wsChar (c : Nat) : Bool :=
  c == 9 || c == 10 || c == 13 || c == 12 || c == 0 || c == 32

/-- The character class of regex `\s`: space, tab, newline, carriage
return, form feed, vertical tab (no NUL). -/
def reWsChar (c : Nat) : Bool :=
  c == 32 || c == 9 || c == 10 || c == 13 || c == 12 || c == 11

/-- ASCII digit test. -/
def digitChar (c : Nat) : Bool := 48 ≤ c && c ≤ 57

/-- Split helper: `re.split` against a class of single characters, keeping
empty segments, as `re.split(NEWLINE, s)` does. -/
def splitClassSingle (p : Nat → Bool) : ByteStr → List ByteStr
  | [] => [[]]
  | c :: rest =>
      if p c then [] :: splitClassSingle p rest
      else match splitClassSingle p rest with
        | [] => [[c]]
        | seg :: segs => (c :: seg) :: segs

/-- Split helper for `re.split(WHITESPACE, s)`: the pattern is a run
(`[...]+`), so maximal runs of class characters separate segments, and a
leading or trailing run yields an empty segment, as in Python. -/
def splitClassRun (p : Nat → Bool) (l : ByteStr) : List ByteStr :=
  let raw := splitClassSingle p l
  -- collapsing: re.split on `X+` yields one split per maximal run, i.e.
  -- the empty segments produced between adjacent class characters vanish,
  -- but an empty segment at either end stays.
  match raw with
  | [] => [[]]
  | first :: rest =>
      first :: go rest
where
  go : List ByteStr → List ByteStr
    | [] => []
    | [last] => [last]
    | seg :: rest => if seg.isEmpty then go rest else seg :: go rest

/-- Render a natural number in decimal, as Python `%d` does for the
nonnegative values appearing below. -/
def fmtNat (n : Nat) : String := toString n

/-- Render an integer in decimal. -/
def fmtInt (i : Int) : String := toString i

/-! ### The module's regexes, hand-compiled

Each matcher reproduces one compiled pattern of the source, applied with
`.match` (anchored at the start, not at the end) or `.finditer`.  For each
pattern the greedy repetitions are separated by characters disjoint from
the repeated class, so Python's backtracking never revisits a shorter run
and the matchers below can take maximal runs; the one pattern where two
adjacent pieces share characters (`NUMBER`'s `[0-9-]*` before `[.]`) is
noted at its definition. -/

/-- Length of the maximal run of class characters at the front. -/
def runLen (p : Nat → Bool) : ByteStr → Nat
  | [] => 0
  | c :: rest => if p c then runLen p rest + 1 else 0

/-- Match `[0-9]+\s+[0-9]+\s+R` at the start; the matched length.  Used for
the `REF` regex and as one alternative of `TOKEN`. -/
def matchRef (l : ByteStr) : Option Nat :=
  let d1 := runLen digitChar l
  if d1 == 0 then none else
  let l1 := l.drop d1
  let w1 := runLen reWsChar l1
  if w1 == 0 then none else
  let l2 := l1.drop w1
  let d2 := runLen digitChar l2
  if d2 == 0 then none else
  let l3 := l2.drop d2
  let w2 := runLen reWsChar l3
  if w2 == 0 then none else
  match l3.drop w2 with
  | 82 :: _ => some (d1 + w1 + d2 + w2 + 1)
  | _ => none

/-- Character class `[^/ \n\r\t()<>\[\]{}%]` of the name alternative of
`TOKEN` (note: form feed and NUL are not excluded by the source class). -/
def nameRestChar (c : Nat) : Bool :=
  !(c == 47 || c == 32 || c == 10 || c == 13 || c == 9 || c == 40 || c == 41
    || c == 60 || c == 62 || c == 91 || c == 93 || c == 123 || c == 125
    || c == 37)

/-- Character class `[a-zA-Z0-9._-]` of the bare-symbol alternative of
`TOKEN`. -/
def symbolChar (c : Nat) : Bool :=
  (97 ≤ c && c ≤ 122) || (65 ≤ c && c ≤ 90) || digitChar c
    || c == 46 || c == 95 || c == 45

/-- The `TOKEN` regex
`<<|>>|\(|[0-9]+\s+[0-9]+\s+R|/[^...]*|\[|\]|<|[a-zA-Z0-9._-]+`,
matched at the start with Python's ordered alternation; the matched
length. -/
def tokenMatch (l : ByteStr) : Option Nat :=
  match l with
  | 60 :: 60 :: _ => some 2          -- <<
  | 62 :: 62 :: _ => some 2          -- >>
  | 40 :: _ => some 1                -- (
  | _ =>
    match matchRef l with
    | some n => some n
    | none =>
      match l with
      | 47 :: rest => some (1 + runLen nameRestChar rest)   -- /name
      | 91 :: _ => some 1            -- [
      | 93 :: _ => some 1            -- ]
      | 60 :: _ => some 1            -- <
      | _ => let n := runLen symbolChar l
             if n == 0 then none else some n

/-- Character class `[0-9-]`. -/
def digitDashChar (c : Nat) : Bool := digitChar c || c == 45

/-- Character class `[0-9.-]` (also written `[0-9-.]`). -/
def digitDotDashChar (c : Nat) : Bool := digitChar c || c == 46 || c == 45

/-- Boolean `NUMBER.match`:
`-?[0-9-]*[.][0-9]*(e[0-9-.]+)?|-?[0-9]+e[0-9.-]+`.
In the first alternative the leading `-?[0-9-]*` is equivalent to
`[0-9-]*`, and since `.` is not in the class, backtracking can only
succeed with the maximal run; the tail after `[.]` always matches (both
pieces can be empty), so the test reduces to: a maximal `[0-9-]` run
followed by a dot.  The second alternative is `-?` digits `e` then at
least one `[0-9.-]`. -/
def numberMatchB (l : ByteStr) : Bool :=
  (match l.drop (runLen digitDashChar l) with
   | 46 :: _ => true
   | _ => false)
  ||
  (let l0 := match l with | 45 :: rest => rest | _ => l
   let d := runLen digitChar l0
   d != 0 &&
     (match l0.drop d with
      | 101 :: rest => runLen digitDotDashChar rest != 0
      | _ => false))

/-- Boolean `INTEGER.match`: `-?[0-9]+`. -/
def integerMatchB (l : ByteStr) : Bool :=
  let l0 := match l with | 45 :: rest => rest | _ => l
  runLen digitChar l0 != 0

/-- Boolean `REF.match`. -/
def refMatchB (l : ByteStr) : Bool := (matchRef l).isSome

/-- Match `OBJ = ([0-9]+)\s+([0-9]+)\s+obj` at the start: the two captured
numbers and the matched length. -/
def objMatchHere (l : ByteStr) : Option (Nat × Nat × Nat) :=
  let d1 := runLen digitChar l
  if d1 == 0 then none else
  let l1 := l.drop d1
  let w1 := runLen reWsChar l1
  if w1 == 0 then none else
  let l2 := l1.drop w1
  let d2 := runLen digitChar l2
  if d2 == 0 then none else
  let l3 := l2.drop d2
  let w2 := runLen reWsChar l3
  if w2 == 0 then none else
  match l3.drop w2 with
  | 111 :: 98 :: 106 :: _ =>         -- "obj"
      some (digitsToNat (l.take d1), digitsToNat (l2.take d2),
            d1 + w1 + d2 + w2 + 3)
  | _ => none

/-- Boolean `OBJ_START.match`: `[0-9]+\s+[0-9]+\s+obj.*` (the trailing `.*`
always matches). -/
def objStartB (l : ByteStr) : Bool := (objMatchHere l).isSome

/-- Boolean `XREF_START.match`: `xref.*`. -/
def xrefStartB (l : ByteStr) : Bool := (bs "xref").isPrefixOf l

/-- Regex `.`: any character except newline. -/
def dotChar (c : Nat) : Bool := c != 10

/-- Boolean `XREF.match`:
`(xref|ref|ef|f|.xref|..xref|...xref).*` with ordered alternation ( `.`
is any character but newline). -/
def xrefMatchB (l : ByteStr) : Bool :=
  (bs "xref").isPrefixOf l
  || (bs "ref").isPrefixOf l
  || (bs "ef").isPrefixOf l
  || (bs "f").isPrefixOf l
  || (match l with
      | a :: rest => dotChar a && (bs "xref").isPrefixOf rest
      | _ => false)
  || (match l with
      | a :: b :: rest => dotChar a && dotChar b && (bs "xref").isPrefixOf rest
      | _ => false)
  || (match l with
      | a :: b :: c :: rest =>
          dotChar a && dotChar b && dotChar c && (bs "xref").isPrefixOf rest
      | _ => false)

/-- Boolean `INLINE_XREF.match`: `xref\s+[0-9]+\s+[0-9]+`. -/
def inlineXrefB (l : ByteStr) : Bool :=
  (bs "xref").isPrefixOf l &&
  (let l1 := l.drop 4
   let w1 := runLen reWsChar l1
   w1 != 0 &&
     (let l2 := l1.drop w1
      let d1 := runLen digitChar l2
      d1 != 0 &&
        (let l3 := l2.drop d1
         let w2 := runLen reWsChar l3
         w2 != 0 && runLen digitChar (l3.drop w2) != 0)))

/-- Match `TRAILER = trailer\s*<<` at the start; the matched length. -/
def trailerMatchHere (l : ByteStr) : Option Nat :=
  if (bs "trailer").isPrefixOf l then
    let w := runLen reWsChar (l.drop 7)
    match (l.drop 7).drop w with
    | 60 :: 60 :: _ => some (7 + w + 2)
    | _ => none
  else none

/-- Fueled `finditer` scan: left to right, non-overlapping, resuming after
each match (no matcher below matches the empty string, so the cursor
always advances). -/
def finditerGo {α : Type} (m : ByteStr → Option (α × Nat)) :
    Nat → Nat → ByteStr → List (Nat × α)
  | 0, _, _ => []
  | _ + 1, _, [] => []
  | fuel + 1, i, l@(_ :: rest) =>
      match m l with
      | some (a, len) =>
          (i, a) :: finditerGo m fuel (i + len) (l.drop len)
      | none => finditerGo m fuel (i + 1) rest

/-- `OBJ.finditer(bytes)`: list of `(start, (group1, group2))`. -/
def objFinditer (l : ByteStr) : List (Nat × Nat × Nat) :=
  finditerGo (fun s => (objMatchHere s).map (fun (a, b, len) => ((a, b), len)))
    (l.length + 1) 0 l

/-- `TRAILER.finditer(bytes)`: list of match start positions. -/
def trailerFinditer (l : ByteStr) : List Nat :=
  (finditerGo (fun s => (trailerMatchHere s).map (fun len => ((), len)))
    (l.length + 1) 0 l).map (·.1)

/-! ### The value model

`class ID`, the `PDFType` value variants (`PDFString`, `PDFHexID`,
`PDFArray`, `PDFDict`), plus the plain Python values (`str`, `int`,
`float`) that the tokenizer can return, folded into one inductive. -/

/-- The source's `class ID`: object number and generation number (Python
ints).  Its `__eq__` and `__hash__` are `idEq` and `idHash` below. -/
structure ID where
  id : Int
  gen : Int
deriving DecidableEq, Repr

/-- `ID.__eq__`: comparison by object number alone. -/
def idEq (a b : ID) : Bool := a.id == b.id

/-- CPython's hash of an int: reduction modulo `2^61 - 1` keeping the sign,
with `-1` mapped to `-2`. -/
def pyIntHash (n : Int) : Int :=
  let m : Int := 2 ^ 61 - 1
  let r : Int := if 0 ≤ n then n % m else -((-n) % m)
  if r = -1 then -2 else r

/-- `ID.__hash__`: `hash(self.id)`, the generation number ignored. -/
def idHash (a : ID) : Int := pyIntHash a.id

/-- One Python value as the tokenizer and the document model pass them
around: `str` (a plain Python string: symbols, names, keywords), `int`,
`float` (carried as an exact rational; the binary64 rounding of Python
floats is not modelled, and no value in any theorem below is a float),
`PDFString` (raw bytes including the delimiting parentheses),
`PDFHexID`, `PDFArray`, `PDFDict` (insertion-ordered), and `ID`
(an indirect reference).  `none` is Python `None`. -/
inductive PyVal where
  | none
  | str (s : ByteStr)
  | int (n : Int)
  | real (q : Rat)
  | pstr (s : ByteStr)
  | hex (a : List Nat)
  | arr (a : List PyVal)
  | dict (d : List (ByteStr × PyVal))
  | ref (i : ID)
deriving Repr

/-- Python dict membership (`key in d`) for the raw dicts underlying
`PDFDict`. -/
def dictMem (d : List (ByteStr × PyVal)) (k : ByteStr) : Bool :=
  d.any (fun p => p.1 == k)

/-- Python dict lookup, `None` for absent. -/
def dictFind (d : List (ByteStr × PyVal)) (k : ByteStr) : Option PyVal :=
  (d.find? (fun p => p.1 == k)).map (·.2)

/-- Python dict assignment `d[k] = v`: replace in place when the key is
present (the stored key object stays), else append, keeping insertion
order. -/
def dictSet (d : List (ByteStr × PyVal)) (k : ByteStr) (v : PyVal) :
    List (ByteStr × PyVal) :=
  if dictMem d k then
    d.map (fun p => if p.1 == k then (p.1, v) else p)
  else d ++ [(k, v)]

/-- Python `del d[k]`: `KeyError` when absent. -/
def dictDel (d : List (ByteStr × PyVal)) (k : ByteStr) :
    Except PyErr (List (ByteStr × PyVal)) :=
  if dictMem d k then .ok (d.filter (fun p => !(p.1 == k)))
  else .error (.keyError (String.mk (k.map Char.ofNat)))

/-- `del d[k]` wrapped in the source's bare `try`/`except: pass`. -/
def dictDelQuiet (d : List (ByteStr × PyVal)) (k : ByteStr) :
    List (ByteStr × PyVal) :=
  d.filter (fun p => !(p.1 == k))

/-- `PDFDict.__getitem__`: when the key is absent and does not start with
a slash, retry with the slash prepended; `KeyError` when still absent. -/
def pdfDictGet (d : List (ByteStr × PyVal)) (k : ByteStr) :
    Except PyErr PyVal :=
  let slashed := match k with | 47 :: _ => true | _ => false
  let key := if !dictMem d k && !slashed then 47 :: k else k
  match dictFind d key with
  | some v => .ok v
  | Option.none => .error (.keyError (String.mk (key.map Char.ofNat)))

/-- `PDFDict.get(key, value)`: raw lookup with default, no slash logic. -/
def pdfDictGetD (d : List (ByteStr × PyVal)) (k : ByteStr) (v : PyVal) :
    PyVal :=
  match dictFind d k with
  | some w => w
  | Option.none => v

/-- Python `==` between a value and a `str` literal: equal only when the
value is the same string (cross-type comparison is `False`). -/
def pyEqStr (v : PyVal) (s : ByteStr) : Bool :=
  match v with
  | .str t => t == s
  | _ => false

/-! ### Dictionaries keyed by `ID`

`RawPDF.xref` and `RawPDF.id2object_cache` are Python dicts keyed by `ID`
objects, whose `__hash__`/`__eq__` use the object number alone; such a
dict therefore behaves as keyed by object number, with the stored key
retaining the generation of its first insertion. -/

/-- Membership in an `ID`-keyed dict. -/
def idDictMem {α : Type} (t : List (ID × α)) (k : ID) : Bool :=
  t.any (fun p => idEq p.1 k)

/-- Lookup in an `ID`-keyed dict (`d.get(k, None)` / `d[k]`). -/
def idDictFind {α : Type} (t : List (ID × α)) (k : ID) : Option α :=
  (t.find? (fun p => idEq p.1 k)).map (·.2)

/-- Assignment `d[k] = v` in an `ID`-keyed dict: replace the value at an
`idEq`-matching entry keeping the stored key, else append. -/
def idDictSet {α : Type} (t : List (ID × α)) (k : ID) (v : α) :
    List (ID × α) :=
  if idDictMem t k then
    t.map (fun p => if idEq p.1 k then (p.1, v) else p)
  else t ++ [(k, v)]

/-- `del d[k]` in an `ID`-keyed dict: `KeyError` when absent. -/
def idDictDel {α : Type} (t : List (ID × α)) (k : ID) :
    Except PyErr (List (ID × α)) :=
  if idDictMem t k then .ok (t.filter (fun p => !(idEq p.1 k)))
  else .error (.keyError (fmtInt k.id))

/-! ### The RC4 cipher

The source's `rc4` is Python 2 code left in a Python 3 module: it iterates
`xrange(256)` (undefined in Python 3), assigns into a `range` object, and
constructs `io.StringIO(len(text))` with an int argument.  Under the
Python 3 interpreter the rest of the module is written for, any call with
nonempty `text` therefore raises `NameError: name 'xrange' is not defined`
before a single byte is processed, while empty `text` returns early.
`rc4` below is that Python 3 behaviour; `rc4_alg` is the cipher the
function spells out, read with the Python 2 semantics it was written for
(a list-valued `range`, `xrange`, a string buffer). -/

/-- `rc4(text, key)` as executed by the Python 3 interpreter. -/
def rc4 (text _key : ByteStr) : Except PyErr ByteStr :=
  if text.isEmpty then .ok text
  else .error (.nameError "xrange")

/-- Python `p[i],p[j] = p[j],p[i]`. -/
def listSwap (l : List Nat) (i j : Nat) : List Nat :=
  let a := l.getD i 0
  let b := l.getD j 0
  (l.set i b).set j a

/-- One iteration of the key schedule: fold state is the permutation and
`right`. -/
def ksaStep (key : ByteStr) (st : List Nat × Nat) (left : Nat) :
    List Nat × Nat :=
  let r1 := st.2 + (st.1.getD left 0)
  let r2 := if key.length != 0 then r1 + key.getD (left % key.length) 0 else r1
  let r := r2 % 256
  (listSwap st.1 left r, r)

/-- The key schedule: `p = range(256)` then 256 swap rounds. -/
def ksa (key : ByteStr) : List Nat × Nat :=
  (List.range 256).foldl (ksaStep key) (List.range 256, 0)

/-- One keystream step: `pos` is the enumerate index; returns the new
state and the keystream byte.  The step depends only on the state and the
position, never on the text byte. -/
def prgaStep (st : List Nat × Nat) (pos : Nat) : (List Nat × Nat) × Nat :=
  let left := (pos + 1) % 256
  let right := (st.2 + st.1.getD left 0) % 256
  let p := listSwap st.1 left right
  ((p, right), p.getD ((p.getD left 0 + p.getD right 0) % 256) 0)

/-- The encryption loop of `rc4_alg`. -/
def rc4Go (st : List Nat × Nat) (pos : Nat) : ByteStr → ByteStr
  | [] => []
  | c :: cs =>
      let sk := prgaStep st pos
      (c ^^^ sk.2) :: rc4Go sk.1 (pos + 1) cs

/-- The cipher `rc4` spells out (its Python 2 reading): the key schedule,
then — with `right` reset to 0 — the keystream loop. -/
def rc4_alg (text key : ByteStr) : ByteStr :=
  if text.isEmpty then text
  else rc4Go ((ksa key).1, 0) 0 text

/-! ### The radix-85 filter

The `/ASCII85Decode` branch of `PDFDictObject._decompress`, lifted out as
a function of the stream bytes.  Its partial-final-group arm (marked
`# untested` in the source) appends to the name `stream`, which is not
bound in the function, so reaching it with 2, 3 or 4 pending characters
raises `NameError`; with exactly 1 pending character no arm matches and
the group is dropped.  The `z` arm appends the one-character string
`"\0"`, a single zero byte. -/

/-- Big-endian bytes of the 32-bit group value. -/
def group4 (s : Nat) : ByteStr :=
  [(s >>> 24) % 256, (s >>> 16) % 256, (s >>> 8) % 256, s % 256]

/-- The decode loop: state is the output built so far, the pending group
value `s`, and the pending character count. -/
def ascii85Go : ByteStr → ByteStr → Nat → Nat → Except PyErr ByteStr
  | [], newstream, _, _ => .ok newstream
  | c :: rest, newstream, s, count =>
      if wsChar c then ascii85Go rest newstream s count
      else if c == 122 then
        if count != 0 then
          .error (.malformed "bad mix of 5-tuples and z in ascii85 stream")
        else ascii85Go rest (newstream ++ [0]) s count
      else if c == 126 then
        -- `~>` end marker: flush a partial group, then break.  The flush
        -- arms for counts 2, 3 and 4 reference the unbound name `stream`.
        if count == 2 || count == 3 || count == 4 then
          .error (.nameError "stream")
        else .ok newstream
      else if 33 ≤ c && c ≤ 117 then
        let s2 := s * 85 + (c - 33)
        if count + 1 == 5 then ascii85Go rest (newstream ++ group4 s2) 0 0
        else ascii85Go rest newstream s2 (count + 1)
      else .error (.malformed "bad char in ascii85 stream")

/-- The `/ASCII85Decode` branch of `_decompress` applied to a stream. -/
def ascii85Decode (stream : ByteStr) : Except PyErr ByteStr :=
  ascii85Go stream [] 0 0

/-! ### The predictor

`PDFDictObject._predict`.  The data list the source accumulates mixes two
Python types: the predictor-0 arm extends it with one-character strings
(a slice of `indata`), the predictor-1 arm seeds `row[0]` with a
one-character string, while only the predictor-2 arm and the untouched
default produce ints; `"".join(map(chr, data))` then needs every element
to be an int.  `PyByte` carries that distinction. -/

/-- An element of `_predict`'s row/data lists: an int, or a one-character
string slipped in by the predictor 0/1 arms. -/
inductive PyByte where
  | int (n : Nat)
  | chr (c : Nat)
deriving DecidableEq, Repr

/-- The predictor-1 ("sub") row: `row[0]` is the one-character string
`indata[pos]`; each further element adds `ord(indata[pos+i])` to its
predecessor, which raises `TypeError` as soon as the predecessor is a
string — so immediately, at `i = 1`. -/
def subRow (indata : ByteStr) (pos width : Nat) :
    Except PyErr (List PyByte) :=
  if width == 0 then .error .indexError    -- `row[0] = ...` on `[0]*0`
  else if width == 1 then do
    let c ← pyIndex indata pos
    .ok [.chr c]
  else .error (.typeError "can only concatenate str (not int) to str")

/-- The predictor-2 ("up") row: element-wise `(prev[i]+ord(...)) & 0xff`;
`TypeError` when the previous row holds a string element. -/
def upRow (indata : ByteStr) (pos : Nat) :
    List PyByte → Nat → Except PyErr (List PyByte)
  | [], _ => .ok []
  | pb :: prest, i => do
      match pb with
      | .chr _ =>
          .error (.typeError "unsupported operand type for plus: str and int")
      | .int p => do
          let c ← pyIndex indata (pos + i)
          let rest ← upRow indata pos prest (i + 1)
          .ok (.int ((p + c) % 256) :: rest)

/-- One row of the predictor loop: read the tag byte, build the row. -/
def predictRowAt (indata : ByteStr) (pos width : Nat) (prev : List PyByte) :
    Except PyErr (List PyByte) := do
  let tag ← pyIndex indata pos
  if tag == 0 then
    .ok ((pySlice indata (pos + 1) (pos + 1 + width)).map .chr)
  else if tag == 1 then
    subRow indata (pos + 1) width
  else if tag == 2 then
    upRow indata (pos + 1) prev 0
  else
    .ok (List.replicate width (.int 0))   -- `row = [0]*width`, no arm taken

/-- The row loop `for pos in range(0, len(indata), width+1)`. -/
def predictRows (indata : ByteStr) (width : Nat) :
    Nat → Nat → List PyByte → Except PyErr (List PyByte)
  | 0, _, _ => .ok []
  | n + 1, pos, prev => do
      let row ← predictRowAt indata pos width prev
      let rest ← predictRows indata width n (pos + width + 1) row
      .ok (row ++ rest)

/-- `"".join(map(chr, data))`: every element must be an int. -/
def joinChr : List PyByte → Except PyErr ByteStr
  | [] => .ok []
  | .int n :: rest => do
      let r ← joinChr rest
      .ok (n :: r)
  | .chr _ :: _ =>
      .error (.typeError "an integer is required (got type str)")

/-- `PDFDictObject._predict(indata, params)`.  Notable source behaviours
kept: when `/Predictor` is absent the function returns the unbound name
`data` (`NameError`); when the predictor value is 1 it returns `None`;
a predictor value outside 10..15 is the hard error "unknown predictor";
inside the row loop an unrecognised row tag byte leaves the
zero-initialised row in place without any error. -/
def predict (indata : ByteStr) (params : PyVal) :
    Except PyErr (Option ByteStr) := do
  let pd ← match params with
    | .dict pd => pure pd
    | _ => .error (.typeError "argument is not a mapping")
  if !dictMem pd (bs "/Predictor") then
    .error (.nameError "data")
  else do
    let pv ← pdfDictGet pd (bs "/Predictor")
    let p ← match pv with
      | .int n => pure n
      | _ => .error (.typeError "predictor value is not an int")
    if p == 1 then
      .ok Option.none
    else do
      let wv ← pdfDictGet pd (bs "/Columns")
      let w ← match wv with
        | .int n => pure n
        | _ => .error (.typeError "columns value is not an int")
      if w < 0 then
        -- model boundary: a negative `/Columns` (never arising below)
        .error (.valueError "negative Columns not modelled")
      else do
      let width := w.toNat
      if indata.length % (width + 1) != 0 then
        .error (.malformed ("data with row size " ++ fmtNat width
          ++ " not divisible by " ++ fmtNat (width + 1)))
      else do
      let height := indata.length / (width + 1)
      if p == 10 || p == 11 || p == 12 || p == 13 || p == 14 || p == 15 then do
        let data ← predictRows indata width height 0
          (List.replicate width (.int 0))
        if data.length != width * height then
          .error (.malformed "bad data size in predictor output")
        else do
          let out ← joinChr data
          .ok (some out)
      else
        .error (.malformed ("unknown predictor " ++ fmtInt p))

/-! ### Objects

`PDFObject` / `PDFDictObject` / `PDFPage`, folded into one structure with
a `kind` tag (the source upcasts by `/Type` right after parsing).  For a
plain (non-dictionary) object the `stream`, `encrypted` and `filters`
attributes do not exist in Python; they carry inert defaults here and no
theorem reads them on a `plain` object.  `parent` is `PDFPage.parent`: in
the source a reference to the parent node object, only ever read by
`get_size`; it is modelled by the parent's identifier. -/

inductive ObjKind where
  | plain
  | dictObj
  | page
deriving DecidableEq, Repr

structure PDFObj where
  kind : ObjKind
  id : Option ID
  d : PyVal
  stream : Option ByteStr
  encrypted : Bool
  filters : List PyVal
  parent : Option ID
deriving Repr

/-- View of an object's `self.d` as the raw Python dict it is for every
dictionary object built by the parser (`TypeError` otherwise). -/
def asRawDict (v : PyVal) : Except PyErr (List (ByteStr × PyVal)) :=
  match v with
  | .dict d => .ok d
  | _ => .error (.typeError "value is not a dict")

/-- `PDFDictObject.__init__`: unwrap a `PDFDict`, lift `/Filter` into the
filter list (wrapping a single name), and delete `/Length` and `/Filter`
from the dictionary (each in a bare try/except). -/
def mkDictObject (id : Option ID) (d0 : PyVal) (stream : Option ByteStr)
    (encrypted : Bool) : PDFObj :=
  match d0 with
  | .dict d =>
      let filters := match dictFind d (bs "/Filter") with
        | Option.none => []
        | some (.arr a) => a
        | some v => [v]
      let d1 := dictDelQuiet (dictDelQuiet d (bs "/Length")) (bs "/Filter")
      { kind := .dictObj, id := id, d := .dict d1, stream := stream,
        encrypted := encrypted, filters := filters, parent := Option.none }
  | _ =>
      -- a non-dict argument would leave `self.d` as that value; the parser
      -- only ever passes dicts here
      { kind := .dictObj, id := id, d := d0, stream := stream,
        encrypted := encrypted, filters := [], parent := Option.none }

/-- `upcast(obj, default_type)`: promote to a page when the effective type
is `/Page` (the `warnings.warn` on a defaulted type is dropped). -/
def upcast (o : PDFObj) (default_type : Option ByteStr) : PDFObj :=
  let t : Option PyVal :=
    match o.d with
    | .dict d =>
        match dictFind d (bs "/Type") with
        | some v => some v
        | Option.none =>
            match default_type with
            | some dt =>
                if dt == bs "/Page" && dictMem d (bs "/Kids") then
                  some (.str (bs "/Pages"))
                else some (.str dt)
            | Option.none => Option.none
    | _ =>
        match default_type with
        | some dt => some (.str dt)
        | Option.none => Option.none
  match t with
  | some tv =>
      if pyEqStr tv (bs "/Page") then { o with kind := .page }
      else o
  | Option.none => o

/-- `PDFDictObject.get_type` (`self.d.get("/Type", "")`); for a plain
`PDFObject`, `get_type` returns `""`. -/
def get_type (o : PDFObj) : PyVal :=
  match o.kind, o.d with
  | .plain, _ => .str []
  | _, .dict d => pdfDictGetD d (bs "/Type") (.str [])
  | _, _ => .str []

/-! ### The security handler

Only the parts a claim touches are embedded: the per-object decryption
(`SecurityHandler.decrypt`) and `encrypt`, which the source defines as the
same RC4 application.  The handler carries its derived file key and the
external `hashlib.md5` digest as an oracle function (md5 itself is not
code of this repository). -/

structure SecurityHandler where
  key : ByteStr
  md5 : ByteStr → ByteStr

/-- The five extension bytes `%c%c%c%c%c` of the per-object key: low-order
bytes of the object and generation numbers (Python `&`/`>>` on ints,
which agree with `emod`/`ediv` for the nonnegative divisors used). -/
def idKeyBytes (i : ID) : ByteStr :=
  [ (i.id.emod 256).toNat, ((i.id.ediv 256).emod 256).toNat,
    ((i.id.ediv 65536).emod 256).toNat,
    (i.gen.emod 256).toNat, ((i.gen.ediv 256).emod 256).toNat ]

/-- `SecurityHandler.decrypt(data, id)`: derive the per-object key and run
`rc4`.  `rc4` returns `None` unchanged for `None` input and raises
`NameError` (Python 3) for any nonempty input. -/
def SecurityHandler.decrypt (h : SecurityHandler) (data : Option ByteStr)
    (id : Option ID) : Except PyErr (Option ByteStr) := do
  let i ← match id with
    | some i => pure i
    | Option.none => .error (.attributeError "id")
  let key0 := h.md5 (h.key ++ idKeyBytes i)
  let key1 := key0.take (h.key.length + 5)
  let key := key1.take 16
  match data with
  | Option.none => .ok Option.none
  | some t => do
      let r ← rc4 t key
      .ok (some r)

/-- `SecurityHandler.encrypt`: "rc4 is symmetric", the same operation. -/
def SecurityHandler.encrypt (h : SecurityHandler) (data : Option ByteStr)
    (id : Option ID) : Except PyErr (Option ByteStr) :=
  h.decrypt data id

/-! ### Decompression

`PDFDictObject._decompress` and `decompress`.  The zlib inflate of
`/FlateDecode` is the external `zlib.decompress`, passed in as an oracle
`zinf` (a `.error` result models `zlib.error`, which the source converts
to its malformed-PDF error).  The unsupported-filter arm restores the
popped name — rebuilding exactly the original filter list — and raises
`ValueError`, which `decompress` catches; `DecompStep.unsupported`
carries that restored object. -/

inductive DecompStep where
  | stepped (o : PDFObj)
  | unsupported (o : PDFObj)

/-- `PDFDictObject._decompress`: pop the front filter and reverse it. -/
def decompressOne (zinf : ByteStr → Except String ByteStr) (o : PDFObj) :
    Except PyErr DecompStep :=
  match o.filters with
  | [] => .error .indexError
  | f :: rest =>
    if pyEqStr f (bs "/FlateDecode") then do
      let st ← match o.stream with
        | some st => pure st
        | Option.none => .error (.attributeError "encode")
      let out ← match zinf st with
        | .ok out => pure out
        | .error e => .error (.malformed ("couldnt decompress obj: " ++ e))
      let d ← asRawDict o.d
      if dictMem d (bs "/DecodeParms") then do
        let params ← pdfDictGet d (bs "/DecodeParms")
        let out2 ← predict out params
        .ok (.stepped { o with stream := out2, filters := rest })
      else
        .ok (.stepped { o with stream := some out, filters := rest })
    else if pyEqStr f (bs "/ASCII85Decode") then do
      let st ← match o.stream with
        | some st => pure st
        | Option.none => .error (.typeError "NoneType is not iterable")
      let out ← ascii85Decode st
      .ok (.stepped { o with stream := some out, filters := rest })
    else
      -- `self.filters = [filter] + self.filters; raise ValueError(...)`:
      -- the restored list is the original one
      .ok (.unsupported o)

/-- The `while self.filters:` loop of `decompress`, with the
`except ValueError: return` arm ("compress as far as possible"). -/
def decompressLoop (zinf : ByteStr → Except String ByteStr) :
    Nat → PDFObj → Except PyErr PDFObj
  | 0, _ => .error .fuel
  | n + 1, o =>
      if o.filters.isEmpty then .ok o
      else
        match decompressOne zinf o with
        | .ok (.stepped o2) => decompressLoop zinf n o2
        | .ok (.unsupported o2) => .ok o2
        | .error e => .error e

/-- `PDFDictObject.decompress`: decrypt once if still flagged encrypted
(through the document's security handler), then reverse filters front to
back until the list is empty or an unsupported name stops the pipeline. -/
def decompress (zinf : ByteStr → Except String ByteStr)
    (sec : Option SecurityHandler) (fuel : Nat) (o : PDFObj) :
    Except PyErr PDFObj :=
  if o.encrypted then
    match sec with
    | Option.none => .error (.attributeError "securityhandler")
    | some h => do
        let st ← h.decrypt o.stream o.id
        decompressLoop zinf fuel { o with stream := st, encrypted := false }
  else decompressLoop zinf fuel o

/-- Stand-in for the external zlib inflate in concrete statements whose
runs never reach a `/FlateDecode` filter. -/
def zlibStub : ByteStr → Except String ByteStr :=
  fun _ => .error "zlib inflate not modelled"

/-! ### The Reader

`class Reader`: a byte buffer and a cursor.  Methods become functions of
`(bytes, pos)` returning the value and the new cursor.  Loops carry fuel;
every concrete run below uses ample fuel, and the general theorems
quantify over it. -/

/-- Inner loop of `skip_whitespace` over a `%` comment: the source indexes
`self.bytes[self.pos]` before its bounds test, so a comment running to the
end of the buffer raises `IndexError`. -/
def swsComment (b : ByteStr) : Nat → Nat → Except PyErr Nat
  | 0, _ => .error .fuel
  | fuel + 1, pos =>
      match b.get? pos with
      | Option.none => .error .indexError
      | some c =>
          if c == 10 || c == 13 then .ok pos
          else swsComment b fuel (pos + 1)

/-- Outer loop of `skip_whitespace`. -/
def swsGo (b : ByteStr) : Nat → Nat → Except PyErr Nat
  | 0, _ => .error .fuel
  | fuel + 1, pos =>
      if pos < b.length then do
        let pos1 ← if b.getD pos 0 == 37 then swsComment b (b.length + 1) pos
                   else pure pos
        if wsChar (b.getD pos1 0) then swsGo b fuel (pos1 + 1)
        else .ok pos1
      else .ok pos

/-- `Reader.skip_whitespace`: skip whitespace and `%` comments. -/
def skip_whitespace (b : ByteStr) (pos : Nat) : Except PyErr Nat :=
  swsGo b (b.length + 1) pos

/-- `Reader.read_symbol`: skip whitespace, then match `TOKEN` against the
next (at most) 256 bytes. -/
def read_symbol (b : ByteStr) (pos : Nat) : Except PyErr (ByteStr × Nat) := do
  let p ← skip_whitespace b pos
  if p == b.length then .error (.malformed "unexpected end of stream")
  else
    match tokenMatch (pySlice b p (p + 256)) with
    | Option.none => .error (.malformed "invalid token")
    | some n => .ok (pySlice b p (p + n), p + n)

/-- `Reader.peek_symbol`: `read_symbol` with the cursor restored. -/
def peek_symbol (b : ByteStr) (pos : Nat) : Except PyErr ByteStr := do
  let (s, _) ← read_symbol b pos
  .ok s

/-- `Reader.read_int`. -/
def read_int (b : ByteStr) (pos : Nat) : Except PyErr (Int × Nat) := do
  let p ← skip_whitespace b pos
  let (t, p2) ← read_symbol b p
  match pyInt t with
  | some n => .ok (n, p2)
  | Option.none =>
      .error (.malformed ("not an integer: " ++ String.mk (t.map Char.ofNat)))

/-- Python `float(s)` on the decimal forms the tokenizer can produce
(optional sign, digits, optional dot and fraction, optional exponent);
the value is kept as an exact rational — the binary64 rounding of a real
Python float is not modelled, and no theorem below involves a float. -/
def pyFloat (l : ByteStr) : Option Rat :=
  let t := pyStrip l
  let (neg, t1) : Bool × ByteStr := match t with
    | 45 :: rest => (true, rest)
    | 43 :: rest => (false, rest)
    | _ => (false, t)
  let mantExp : ByteStr × Option ByteStr :=
    match t1.splitOn 101 with        -- lowercase e
    | [m] => match t1.splitOn 69 with -- uppercase E
             | [m2] => (m2, Option.none)
             | [m2, e2] => (m2, some e2)
             | _ => (m, Option.none)
    | [m, e] => (m, some e)
    | _ => (t1, Option.none)
  let (mant, expPart) := mantExp
  let (ip, fp) : ByteStr × ByteStr :=
    match mant.splitOn 46 with
    | [i] => (i, [])
    | [i, f] => (i, f)
    | _ => (mant, [])
  if (ip.isEmpty && fp.isEmpty) || !ip.all digitChar || !fp.all digitChar then
    Option.none
  else
    let base : Rat := ((digitsToNat ip * 10 ^ fp.length + digitsToNat fp : Nat) : Rat)
      / ((10 ^ fp.length : Nat) : Rat)
    let signed := if neg then -base else base
    match expPart with
    | Option.none => some signed
    | some e =>
        match pyInt e with
        | some ev => some (signed * (10 : Rat) ^ ev)
        | Option.none => Option.none

/-- `Reader.read_float`. -/
def read_float (b : ByteStr) (pos : Nat) : Except PyErr (PyVal × Nat) := do
  let p ← skip_whitespace b pos
  let (t, p2) ← read_symbol b p
  match pyFloat t with
  | some q => .ok (.real q, p2)
  | Option.none =>
      .error (.malformed ("not a float: " ++ String.mk (t.map Char.ofNat)))

/-- Hex digit value. -/
def hexVal (c : Nat) : Option Nat :=
  if 48 ≤ c && c ≤ 57 then some (c - 48)
  else if 97 ≤ c && c ≤ 102 then some (c - 87)
  else if 65 ≤ c && c ≤ 70 then some (c - 55)
  else Option.none

/-- Loop of `Reader.read_id`: consume hex digits and whitespace, pairing
digits into bytes (a trailing lone digit never contributes).  The source
indexes before testing, so a hex string running into the buffer end
raises `IndexError`. -/
def readIdGo (b : ByteStr) :
    Nat → Nat → Nat → Nat → List Nat → Except PyErr (List Nat × Nat)
  | 0, _, _, _, _ => .error .fuel
  | fuel + 1, pos, num, c, acc =>
      match b.get? pos with
      | Option.none => .error .indexError
      | some ch =>
          if wsChar ch then readIdGo b fuel (pos + 1) num c acc
          else
            match hexVal ch with
            | some v =>
                let num2 := num * 16 + v
                if c + 1 == 2 then readIdGo b fuel (pos + 1) 0 0 (acc ++ [num2])
                else readIdGo b fuel (pos + 1) num2 (c + 1) acc
            | Option.none => .ok (acc, pos)

/-- `Reader.read_id`: a hex string `<...>`. -/
def read_id (b : ByteStr) (pos : Nat) : Except PyErr (PyVal × Nat) := do
  let c0 ← pyIndex b pos
  if c0 != 60 then .error (.malformed "ids must start with an angle bracket")
  else do
    let (a, p1) ← readIdGo b (b.length + 1) (pos + 1) 0 0 []
    let p2 ← skip_whitespace b p1
    let c1 ← pyIndex b p2
    if c1 != 62 then .error (.malformed "ids must end with an angle bracket")
    else .ok (.hex a, p2 + 1)

/-- Loop of `Reader.read_literal_string`: balance unescaped parentheses
(the flag `s` mirrors the source's escape flag with its exact update
order). -/
def readLitGo (b : ByteStr) :
    Nat → Nat → Int → Bool → Except PyErr Nat
  | 0, _, _, _ => .error .fuel
  | fuel + 1, pos, o, s =>
      if pos < b.length then
        let c := b.getD pos 0
        if !s && c == 40 then readLitGo b fuel (pos + 1) (o + 1) s
        else if !s && c == 41 then
          if o - 1 == 0 then .ok (pos + 1)
          else readLitGo b fuel (pos + 1) (o - 1) s
        else if s && c == 92 then readLitGo b fuel (pos + 1) o false
        else readLitGo b fuel (pos + 1) o (c == 92)
      else .ok pos

/-- Trailing `)` and whitespace skip after a literal string (a tolerance
for Acrobat PDFWriter 3.02 output, per the source comment). -/
def litTrail (b : ByteStr) : Nat → Nat → Nat
  | 0, pos => pos
  | fuel + 1, pos =>
      if pos < b.length && (b.getD pos 0 == 41 || wsChar (b.getD pos 0)) then
        litTrail b fuel (pos + 1)
      else pos

/-- `Reader.read_literal_string`: the raw bytes including the outer
parentheses. -/
def read_literal_string (b : ByteStr) (pos : Nat) :
    Except PyErr (PyVal × Nat) := do
  let e ← readLitGo b (b.length + 1) pos 0 false
  let p2 := litTrail b (b.length + 1) e
  .ok (.pstr (pySlice b pos e), p2)

/-- `Reader.read_stream(length)`: returns the payload, the new cursor, and
the warnings issued.  In the known-length arm with a short declared
length, the source warns and then adds the *absolute* index of the found
`endstream` to the cursor (`self.pos += extra_bytes`), and returns only
the declared `length` bytes. -/
def read_stream (b : ByteStr) (pos : Nat) (length : Int) :
    Except PyErr (ByteStr × Nat × List String) := do
  let p ← skip_whitespace b pos
  if pySlice b p (p + 6) != bs "stream" then
    .error (.malformed "Stream doesnt start with keyword stream")
  else do
    let p1 := p + 6
    let (p2, warns) ←
      if pySlice b p1 (p1 + 2) == [13, 10] then pure (p1 + 2, ([] : List String))
      else do
        let c ← pyIndex b p1
        if c == 10 then pure (p1 + 1, [])
        else if c == 13 then
          pure (p1 + 1,
            ["Stream keyword is followed by a single carriage return"])
        else pure (p1, ["No newline after stream keyword"])
    if length == 0 then
      -- `if not length:` — seek the marker; the cursor is not advanced
      -- (the local `newpos` is discarded by the caller pattern)
      let newpos := pyFind b (bs "endstream") (p2 : Int)
      .ok (pySliceI b (p2 : Int) newpos, p2, warns)
    else if length < 0 then
      -- model boundary: a negative declared `/Length` (never arising below)
      .error (.valueError "negative Length not modelled")
    else do
      let start := p2
      let p3 := p2 + length.toNat
      let p4 ← skip_whitespace b p3
      if pySlice b p4 (p4 + 9) == bs "endstream" then
        .ok (pySlice b start (start + length.toNat), p4, warns)
      else
        let extra := pyFind b (bs "endstream") (p4 : Int)
        if 0 ≤ extra then
          .ok (pySlice b start (start + length.toNat), p4 + extra.toNat,
            warns ++ ["incorrect stream length (off by "
              ++ fmtInt (extra - (p4 : Int)) ++ " bytes at pos "
              ++ fmtNat p4 ++ ")"])
        else .error (.malformed "Stream doesnt end with an endstream")

/-- The indirect-reference arm of `read_token`:
`re.split(WHITESPACE, symbol)` and `ID(parts[0], parts[1])`. -/
def refFromSymbol (sym : ByteStr) (p2 : Nat) : Except PyErr (PyVal × Nat) :=
  match splitClassRun wsChar sym with
  | i1 :: i2 :: _ =>
      .ok (.ref (ID.mk (digitsToNat i1) (digitsToNat i2)), p2)
  | _ => .error (.malformed "bad reference")

/-- `first[0] in "]>"`. -/
def badDelimFirst (l : ByteStr) : Bool :=
  match l with
  | c :: _ => c == 93 || c == 62
  | _ => false

/-- A call in the mutually recursive group `read_token` / `read_dict` /
`read_dict`'s entry loop / `read_array` / `read_array`'s element loop.
The group is one fueled function over this tag (a Lean `mutual` block
compiles through well-founded recursion, which the kernel cannot
evaluate); the source methods are the wrappers below. -/
inductive RMode where
  | token
  | dict
  | dictItems (acc : List (ByteStr × PyVal))
  | array
  | arrayItems (acc : List PyVal)

/-- The body of the `read_token` group; see `RMode`. -/
def readValGo (b : ByteStr) : Nat → RMode → Nat → Except PyErr (PyVal × Nat)
  | 0, _, _ => .error .fuel
  | fuel + 1, .dict, pos => do
      -- `Reader.read_dict`
      let (token, p1) ← read_symbol b pos
      if token == bs "<<" then readValGo b fuel (.dictItems []) p1
      else .error (.malformed "dict doesnt start with double angle bracket")
  | fuel + 1, .dictItems acc, pos => do
      -- the `while 1` entry loop of `read_dict`
      let s ← peek_symbol b pos
      if s == bs ">>" then do
        let (_, p2) ← read_symbol b pos
        .ok (.dict acc, p2)
      else do
        let (key, p2) ← readValGo b fuel .token pos
        match key with
        | .str k =>
            if (match k with | 47 :: _ => true | _ => false) then do
              let (value, p3) ← readValGo b fuel .token p2
              readValGo b fuel (.dictItems (dictSet acc k value)) p3
            else .error (.malformed "bad key")
        | _ => .error (.malformed "bad key")
  | fuel + 1, .array, pos => do
      -- `Reader.read_array`
      let (token, p1) ← read_symbol b pos
      if token == bs "[" then readValGo b fuel (.arrayItems []) p1
      else .error (.malformed "array doesnt start with bracket")
  | fuel + 1, .arrayItems acc, pos => do
      -- the element loop of `read_array`
      let s ← peek_symbol b pos
      if s == bs "]" then do
        let (_, p2) ← read_symbol b pos
        .ok (.arr acc, p2)
      else do
        let (v, p2) ← readValGo b fuel .token pos
        readValGo b fuel (.arrayItems (acc ++ [v])) p2
  | fuel + 1, .token, pos => do
      -- `Reader.read_token`: peek one symbol and dispatch
      let p ← skip_whitespace b pos
      let first ← peek_symbol b p
      if (bs "<<").isPrefixOf first then readValGo b fuel .dict p
      else if (bs "[").isPrefixOf first then readValGo b fuel .array p
      else if (bs "(").isPrefixOf first then read_literal_string b p
      else if (bs "<").isPrefixOf first then read_id b p
      else if refMatchB first then do
        let (sym, p2) ← read_symbol b p
        refFromSymbol sym p2
      else if badDelimFirst first then
        .error (.malformed "bad delimiter")
      else if numberMatchB first then read_float b p
      else if integerMatchB first then do
        let (n, p2) ← read_int b p
        .ok (.int n, p2)
      else do
        let (sym, p2) ← read_symbol b p
        .ok (.str sym, p2)

/-- `Reader.read_token`. -/
def read_token (b : ByteStr) (fuel pos : Nat) : Except PyErr (PyVal × Nat) :=
  readValGo b (fuel + 1) .token pos

/-- `Reader.read_dict`. -/
def read_dict (b : ByteStr) (fuel pos : Nat) : Except PyErr (PyVal × Nat) :=
  readValGo b (fuel + 1) .dict pos

/-- `Reader.read_array`. -/
def read_array (b : ByteStr) (fuel pos : Nat) : Except PyErr (PyVal × Nat) :=
  readValGo b (fuel + 1) .array pos

/-- `Reader.read_object`: the `N G obj` header, a dictionary or bare
value, and one of the tolerated object endings.  `encryptIsSome` is
`self.file.encrypt != None`. -/
def Reader.read_object (b : ByteStr) (fuel : Nat) (pos : Nat)
    (encryptIsSome : Bool) (default_type : Option ByteStr) :
    Except PyErr (PDFObj × Nat) := do
  let (id1, p1) ← read_symbol b pos
  let (id2, p2) ← read_symbol b p1
  let (objkw, p3) ← read_symbol b p2
  if !pyIsdigit id1 then
    .error (.malformed "object doesnt start with id gen obj")
  else if !pyIsdigit id2 then
    .error (.malformed "object doesnt start with id gen obj")
  else if objkw != bs "obj" then
    .error (.malformed "object doesnt start with id gen obj")
  else do
    let id : ID := ⟨(digitsToNat id1 : Int), (digitsToNat id2 : Int)⟩
    match read_dict b fuel p3 with
    | .error (.malformed _) => do
        -- `except PDFMalformedException`: rewind and read a bare value
        let (dv, p4) ← read_token b fuel p3
        if pyEqStr dv (bs "endobj") then
          .ok ({ kind := .plain, id := some id, d := .dict [],
                 stream := Option.none, encrypted := false, filters := [],
                 parent := Option.none }, p4)
        else do
          let (nxt, p5) ← read_symbol b p4
          if nxt == bs "endobj" then
            .ok ({ kind := .plain, id := some id, d := dv,
                   stream := Option.none, encrypted := false, filters := [],
                   parent := Option.none }, p5)
          else .error (.malformed "streams only supported in dict objects")
    | .error e => .error e
    | .ok (dv, p4) => do
        let length : Int :=
          match dv with
          | .dict d =>
              if dictMem d (bs "/Length") then
                match dictFind d (bs "/Length") with
                | some (.int n) => n
                | _ => 0
              else 0
          | _ => 0
        let _ ← peek_symbol b p4     -- `next = self.peek_symbol()`
        let p5 ← skip_whitespace b p4
        if pySlice b p5 (p5 + 6) == bs "stream" then do
          let (payload, p6, _warns) ← read_stream b p5 length
          .ok (upcast (mkDictObject (some id) dv (some payload) encryptIsSome)
            default_type, p6)
        else if pySlice b p5 (p5 + 6) == bs "endobj" then
          .ok (upcast (mkDictObject (some id) dv (some []) encryptIsSome)
            default_type, p5 + 6)
        else if objStartB (pySlice b p5 (p5 + 16))
            || xrefStartB (pySlice b p5 (p5 + 8)) then
          .ok (upcast (mkDictObject (some id) dv (some []) encryptIsSome)
            default_type, p5)
        else .error (.malformed "invalid end of object")

/-! ### The document: `class RawPDF`

State becomes `PDFState`; the `self.file` back reference of objects
becomes explicit arguments (the security handler, the `encrypt` flag).
`zinf` is the external zlib inflate oracle throughout. -/

/-- A cross-reference table location: a Python int byte offset (`0` is
what `create_object`/`add_object` register), or a
`PDFObjectStreamReference`. -/
inductive Loc where
  | int (n : Int)
  | streamRef (id : ID) (pos : Int)
deriving Repr

/-- Python truthiness of a location value (`if not pos: continue`): an int
is truthy when nonzero; a `PDFObjectStreamReference` instance is always
truthy. -/
def locTruthy : Loc → Bool
  | .int n => n != 0
  | .streamRef _ _ => true

/-- What `get_object` can return: a resolved object, or — for a `PDFType`
argument (a `PDFDict`, `PDFString` or `PDFHexID` value) — that value
passed straight through. -/
inductive ObjOrVal where
  | obj (o : PDFObj)
  | val (v : PyVal)
deriving Repr

/-- Python truthiness of a `PyVal`. -/
def pyTruthy : PyVal → Bool
  | .none => false
  | .str s => !s.isEmpty
  | .int n => n != 0
  | .real q => q != 0
  | .pstr s => !s.isEmpty
  | .hex a => !a.isEmpty
  | .arr a => !a.isEmpty
  | .dict d => !d.isEmpty
  | .ref _ => true

structure PDFState where
  bytes : ByteStr
  xref : List (ID × Loc)
  cache : List (ID × PDFObj)
  nextObjectId : Int
  encrypt : Option ObjOrVal
  securityhandler : Option SecurityHandler
  version : Int × Int
  offset : Int
  xrefType : Option String
  firstXrefPos : Option Int
  root : Option ObjOrVal
  info : Option ObjOrVal
  fileId : Option PyVal

/-- The state `RawPDF.__init__` starts from. -/
def freshState (data : ByteStr) : PDFState :=
  { bytes := data, xref := [], cache := [], nextObjectId := 0,
    encrypt := Option.none, securityhandler := Option.none,
    version := (1, 4), offset := 0, xrefType := Option.none,
    firstXrefPos := Option.none, root := Option.none, info := Option.none,
    fileId := Option.none }

/-- `RawPDF.next_id`: increment and return the counter. -/
def RawPDF.next_id (s : PDFState) : PDFState × Int :=
  ({ s with nextObjectId := s.nextObjectId + 1 }, s.nextObjectId + 1)

/-- The `changed` notification hook: a no-op in `RawPDF`. -/
def RawPDF.changed (s : PDFState) (_o : PDFObj) : PDFState := s

/-- `d["/Type"] = v` on an object's dictionary (all objects this is applied
to below are dictionary objects, built with a dict). -/
def objSetD (o : PDFObj) (k : ByteStr) (v : PyVal) : PDFObj :=
  match o.d with
  | .dict d => { o with d := .dict (dictSet d k v) }
  | _ => o

/-- `RawPDF.create_object(type, subtype)` with the default
`PDFDictObject` constructor: allocate the next identifier, register
location `0` in the table, build an empty dictionary object, cache it,
set `/Type` and `/Subtype` when given (the Python mutations also reach
the cache through aliasing, so the final object is what gets cached). -/
def RawPDF.create_object (s : PDFState) (type subtype : Option ByteStr) :
    PDFState × PDFObj :=
  let (s1, n) := RawPDF.next_id s
  let id : ID := ⟨n, 0⟩
  let s2 := { s1 with xref := idDictSet s1.xref id (.int 0) }
  let o0 := mkDictObject (some id) (.dict []) (some []) false
  let o1 := match type with
    | some t => objSetD o0 (bs "/Type") (.str t)
    | Option.none => o0
  let o2 := match subtype with
    | some t => objSetD o1 (bs "/Subtype") (.str t)
    | Option.none => o1
  let s3 := { s2 with cache := idDictSet s2.cache id o2 }
  (RawPDF.changed s3 o2, o2)

/-- `RawPDF.add_object(obj)`: allocate the next identifier, assign it to
the object, register location `0`, cache the object. -/
def RawPDF.add_object (s : PDFState) (o : PDFObj) : PDFState × PDFObj :=
  let (s1, n) := RawPDF.next_id s
  let id : ID := ⟨n, 0⟩
  let o2 := { o with id := some id }
  let s2 := { s1 with xref := idDictSet s1.xref id (.int 0),
                      cache := idDictSet s1.cache id o2 }
  (RawPDF.changed s2 o2, o2)

/-- The scan loop inside the object-stream arm of `RawPDF.read_object`:
`n` pairs of ints (object number, intra-stream offset) head the
decompressed payload; on the matching number, parse one token at
`offset + first` and wrap it.  `.ok none` is falling off the loop. -/
def objStreamScan (streamBytes : ByteStr) (first : Int) (fuel : Nat)
    (encryptIsSome : Bool) (default_type : Option ByteStr) (targetId : ID) :
    Nat → Nat → Except PyErr (Option PDFObj)
  | 0, _ => .ok Option.none
  | k + 1, pos => do
      let (nr, p1) ← read_int streamBytes pos
      let (off, p2) ← read_int streamBytes p1
      if nr == targetId.id then
        if off + first < 0 then
          .error (.valueError "negative intra-stream offset not modelled")
        else do
          let (d, _) ← read_token streamBytes fuel (off + first).toNat
          match d with
          | .dict _ =>
              .ok (some (upcast
                (mkDictObject (some targetId) d (some []) encryptIsSome)
                default_type))
          | _ =>
              .ok (some { kind := .plain, id := some targetId, d := d,
                          stream := Option.none, encrypted := false,
                          filters := [], parent := Option.none })
      else
        objStreamScan streamBytes first fuel encryptIsSome default_type
          targetId k p2

/-- A call in the mutually recursive pair `RawPDF.get_object` /
`RawPDF.read_object` (they recurse through object-stream containers);
one fueled function over this tag for the same kernel-evaluation reason
as `RMode`, with the source methods as wrappers. -/
inductive GMode where
  | get (v : PyVal) (default_type : Option ByteStr)
  | readLoc (loc : Loc) (id : Option ID) (default_type : Option ByteStr)

/-- The body of the `get_object` / `read_object` pair; a `readLoc` call
always produces `.obj`. -/
def resolveGo (zinf : ByteStr → Except String ByteStr) :
    Nat → PDFState → GMode → Except PyErr (PDFState × ObjOrVal)
  | 0, _, _ => .error .fuel
  | fuel + 1, s, .get v default_type =>
      -- `RawPDF.get_object(object_or_id, default_type)`: a `PDFType`
      -- value passes straight through; an `ID` resolves through the cache
      -- and the table (a table miss is the source's `KeyError`, its hard
      -- lookup failure)
      (match v with
      | .pstr _ => .ok (s, .val v)
      | .hex _ => .ok (s, .val v)
      | .dict _ => .ok (s, .val v)
      | .ref id =>
          (match idDictFind s.cache id with
          | some o => .ok (s, .obj o)
          | Option.none => do
              let loc ← match idDictFind s.xref id with
                | some loc => pure loc
                | Option.none => .error (.keyError (fmtInt id.id))
              let (s2, r) ← resolveGo zinf fuel s (.readLoc loc (some id)
                default_type)
              match r with
              | .obj o =>
                  .ok ({ s2 with cache := idDictSet s2.cache id o }, .obj o)
              | .val _ => .error (.typeError "unreachable: readLoc value"))
      | _ =>
          -- model boundary: a non-`PDFType`, non-`ID` argument (an int, a
          -- float, an array...) is never passed below; in Python it would
          -- fail inside the `ID`-keyed dict machinery
          .error (.typeError "invalid get_object argument"))
  | fuel + 1, s, .readLoc (.streamRef cid _idx) id default_type => do
      -- `RawPDF.read_object` on a `PDFObjectStreamReference`: the
      -- container goes through `get_object` (the cache!), is decompressed
      -- in place (the cached entry is updated, as the Python aliasing
      -- does), and its pair table is scanned
      let (s1, oov) ← resolveGo zinf fuel s (.get (.ref cid) Option.none)
      let obj ← match oov with
        | .obj o => pure o
        | .val _ => .error (.attributeError "decompress")
      let obj2 ← decompress zinf s1.securityhandler fuel obj
      let s2 := { s1 with cache := idDictSet s1.cache cid obj2 }
      let d ← asRawDict obj2.d
      if !(dictMem d (bs "/N") && dictMem d (bs "/First")) then
        .error (.malformed "object stream without N and First")
      else do
        let nv ← pdfDictGet d (bs "/N")
        let n ← match nv with
          | .int n => pure n
          | _ => .error (.typeError "N is not an int")
        let fv ← pdfDictGet d (bs "/First")
        let first ← match fv with
          | .int n => pure n
          | _ => .error (.typeError "First is not an int")
        let data ← match obj2.stream with
          | some st => pure st
          | Option.none => .error (.typeError "stream is None")
        let tid ← match id with
          | some i => pure i
          | Option.none => .error (.attributeError "id")
        let found ← objStreamScan data first fuel (s2.encrypt.isSome)
          default_type tid n.toNat 0
        match found with
        | some o => .ok (s2, .obj o)
        | Option.none =>
            .error (.malformed ("indirect object " ++ fmtInt tid.id
              ++ " not in object stream"))
  | _fuel + 1, s, .readLoc (.int n) _id default_type =>
      -- `RawPDF.read_object` on a byte offset: a fresh `Reader`, no cache
      if n < 0 then .error (.valueError "negative offset not modelled")
      else do
        let (o, _) ← Reader.read_object s.bytes (s.bytes.length + 16) n.toNat
          (s.encrypt.isSome) default_type
        .ok (s, .obj o)

/-- `RawPDF.get_object(object_or_id, default_type)`. -/
def RawPDF.get_object (zinf : ByteStr → Except String ByteStr) (fuel : Nat)
    (s : PDFState) (v : PyVal) (default_type : Option ByteStr) :
    Except PyErr (PDFState × ObjOrVal) :=
  resolveGo zinf (fuel + 1) s (.get v default_type)

/-- `RawPDF.read_object(pos, id, default_type)`. -/
def RawPDF.read_object (zinf : ByteStr → Except String ByteStr) (fuel : Nat)
    (s : PDFState) (loc : Loc) (id : Option ID)
    (default_type : Option ByteStr) : Except PyErr (PDFState × PDFObj) := do
  let (s2, r) ← resolveGo zinf (fuel + 1) s (.readLoc loc id default_type)
  match r with
  | .obj o => .ok (s2, o)
  | .val _ => .error (.typeError "unreachable: readLoc value")

/-- The generator loop of `RawPDF.objects()`: walk the table in insertion
order, skip falsy locations ("deleted"), re-read every other entry with
`read_object(pos, id)`. -/
def objectsGo (zinf : ByteStr → Except String ByteStr) (fuel : Nat) :
    List (ID × Loc) → PDFState → List PDFObj →
    Except PyErr (PDFState × List PDFObj)
  | [], s, acc => .ok (s, acc)
  | (id, loc) :: rest, s, acc =>
      if !locTruthy loc then objectsGo zinf fuel rest s acc
      else do
        let (s2, o) ← RawPDF.read_object zinf fuel s loc (some id) Option.none
        objectsGo zinf fuel rest s2 (acc ++ [o])

/-- `RawPDF.objects()` (the generator, fully forced as its callers do). -/
def RawPDF.objects (zinf : ByteStr → Except String ByteStr) (fuel : Nat)
    (s : PDFState) : Except PyErr (PDFState × List PDFObj) :=
  objectsGo zinf fuel s.xref s []

/-- `isinstance(o, PDFDict)` for a parsed object. -/
def isDictInstance (o : PDFObj) : Bool :=
  match o.kind with
  | .plain => false
  | .dictObj => true
  | .page => true

/-- `RawPDF.dict_objects()`. -/
def RawPDF.dict_objects (zinf : ByteStr → Except String ByteStr)
    (fuel : Nat) (s : PDFState) : Except PyErr (PDFState × List PDFObj) := do
  let (s2, os) ← RawPDF.objects zinf fuel s
  .ok (s2, os.filter isDictInstance)

/-- `o.get("/Type", None) == t` (raw dict get; cross-type `==` is false). -/
def typeIs (o : PDFObj) (key t : ByteStr) : Bool :=
  match o.d with
  | .dict d => pyEqStr (pdfDictGetD d key .none) t
  | _ => false

/-- `RawPDF.objects_of_type(t)`. -/
def RawPDF.objects_of_type (zinf : ByteStr → Except String ByteStr)
    (fuel : Nat) (s : PDFState) (t : ByteStr) :
    Except PyErr (PDFState × List PDFObj) := do
  let (s2, os) ← RawPDF.objects zinf fuel s
  .ok (s2, os.filter (fun o => isDictInstance o && typeIs o (bs "/Type") t))

/-- `RawPDF.objects_of_subtype(t)`. -/
def RawPDF.objects_of_subtype (zinf : ByteStr → Except String ByteStr)
    (fuel : Nat) (s : PDFState) (t : ByteStr) :
    Except PyErr (PDFState × List PDFObj) := do
  let (s2, os) ← RawPDF.objects zinf fuel s
  .ok (s2, os.filter (fun o => isDictInstance o && typeIs o (bs "/Subtype") t))

/-- `RawPDF.images()`. -/
def RawPDF.images (zinf : ByteStr → Except String ByteStr) (fuel : Nat)
    (s : PDFState) : Except PyErr (PDFState × List PDFObj) :=
  RawPDF.objects_of_subtype zinf fuel s (bs "/Image")

/-! ### Cross-reference parsing -/

/-- Python `l[i]` with an int index (negative counts from the end). -/
def pyIndexI (l : ByteStr) (i : Int) : Except PyErr Nat :=
  let j : Int := if i < 0 then i + l.length else i
  if 0 ≤ j && j < l.length then
    match l.get? j.toNat with
    | some c => .ok c
    | Option.none => .error .indexError
  else .error .indexError

/-- The class of the `NEWLINE` regex: `[\n\r]`, split one by one. -/
def newlineChar (c : Nat) : Bool := c == 10 || c == 13

/-- The startxref off-by-a-little fixups at the top of `parse_old_xref`:
the signed adjustment `o` applied to both the cursor and the document
offset when the byte at `pos` is not `x`. -/
def oldXrefFixup (b : ByteStr) (pos : Int) (c : Nat) : Int :=
  if c == 114 then -1
  else if c == 101 then -2
  else if c == 102 then -3
  else if pos < (b.length : Int) - 1
      && (pySliceI b (pos + 1) (pos + 2) == [120]) then 1
  else if pos < (b.length : Int) - 2
      && (pySliceI b (pos + 2) (pos + 3) == [120]) then 2
  else if pos < (b.length : Int) - 3
      && (pySliceI b (pos + 3) (pos + 4) == [120]) then 3
  else 0

/-- The per-entry inner loop of `parse_old_xref`: consume `num` lines of a
subsection, inserting only identifiers not yet present (the source
comment: "we read backwards, so ids read first overload ids read later").
Returns the updated state and the remaining lines.  Running out of lines
is the source's `IndexError` on `lines[j]`. -/
def oldXrefEntries (s : PDFState) (start : Int) :
    Nat → Int → List ByteStr → Except PyErr (PDFState × List ByteStr)
  | 0, _, rest => .ok (s, rest)
  | _ + 1, _, [] => .error .indexError
  | k + 1, i, line :: rest => do
      let entries := splitClassRun wsChar line
      if entries.length != 3 then .error (.malformed "malformed xref entry")
      else do
        let offset ← match pyInt (entries.getD 0 []) with
          | some n => pure n
          | Option.none => .error (.malformed "bad xref location entry")
        let gen ← match pyInt (entries.getD 1 []) with
          | some n => pure n
          | Option.none => .error (.malformed "bad xref location entry")
        let flag := entries.getD 2 []
        let s2 :=
          if start + i != 0 && flag != bs "f" && offset != 0 then
            let id : ID := ⟨start + i, gen⟩
            if idDictMem s.xref id then s
            else { s with xref := s.xref ++ [(id, .int (offset + s.offset))],
                          nextObjectId := max s.nextObjectId id.id }
          else s
        oldXrefEntries s2 start k (i + 1) rest

/-- The subsection loop of `parse_old_xref` (`while j < len(lines)`).
`allLen` is the constant `len(lines)` of its sloppy
`len(lines)-1 >= num` check. -/
def oldXrefSections (allLen : Nat) :
    Nat → PDFState → List ByteStr → Except PyErr PDFState
  | 0, _, _ => .error .fuel
  | _ + 1, s, [] => .ok s
  | fuel + 1, s, hdr :: rest => do
      let entries := splitClassRun wsChar hdr
      if entries.length != 2 then .error (.malformed "broken xref header")
      else do
        let start ← match pyInt (entries.getD 0 []) with
          | some n => pure n
          | Option.none => .error (.malformed "broken xref header.")
        let num ← match pyInt (entries.getD 1 []) with
          | some n => pure n
          | Option.none => .error (.malformed "broken xref header.")
        if !((allLen : Int) - 1 ≥ num) then
          .error (.malformed "too few xref entries")
        else do
          let (s2, rest2) ← oldXrefEntries s start num.toNat 0 rest
          oldXrefSections allLen fuel s2 rest2

/-- `RawPDF.parse_old_xref(pos)`: classic table parsing.  Returns the new
state and `trailer + 7`. -/
def RawPDF.parse_old_xref (s : PDFState) (pos0 : Int) :
    Except PyErr (PDFState × Int) := do
  let c ← pyIndexI s.bytes pos0
  let (s, pos) ←
    if c != 120 then
      let o := oldXrefFixup s.bytes pos0 c
      pure ({ s with offset := s.offset + o }, pos0 + o)
    else pure (s, pos0)
  let trailer := pyFind s.bytes (bs "trailer") pos
  if trailer < 0 then .error (.malformed "no trailer found")
  else if !(0 < trailer) then .error (.malformed "no xref trailer")
  else do
    let lines := ((splitClassSingle newlineChar
      (pySliceI s.bytes pos trailer)).map pyStrip).filter
      (fun l => !l.isEmpty)
    match lines with
    | [] => .error .indexError
    | l0 :: lrest =>
        if !(bs "xref").isPrefixOf l0 then
          .error (.malformed "xref table doesnt start with an xref")
        else do
          let body :=
            if inlineXrefB l0 then pyStrip (l0.drop 4) :: lrest
            else lrest
          let s2 ← oldXrefSections lines.length (lines.length + 1) s body
          .ok (s2, trailer + 7)

/-- Read one fixed-width big-endian field of a cross-reference stream row
(`for c in range(size): val = val<<8 | ord(data[pos])`). -/
def newXrefField (data : ByteStr) :
    Nat → Nat → Nat → Except PyErr (Nat × Nat)
  | 0, pos, val => .ok (val, pos)
  | c + 1, pos, val => do
      let byte ← pyIndex data pos
      newXrefField data c (pos + 1) (val * 256 + byte)

/-- Read one row: one field per `/W` width (each width must be an int). -/
def newXrefRow (data : ByteStr) :
    List PyVal → Nat → List Nat → Except PyErr (List Nat × Nat)
  | [], pos, row => .ok (row, pos)
  | wv :: wrest, pos, row => do
      let width ← match wv with
        | .int n => pure n
        | _ => .error (.typeError "W width is not an int")
      let (val, pos2) ← newXrefField data width.toNat pos 0
      newXrefRow data wrest pos2 (row ++ [val])

/-- Insert one parsed row: type 1 is a direct offset (generation from the
third field), type 2 a `PDFObjectStreamReference`; other leading fields
leave `id = None` and insert nothing.  Short rows raise `IndexError` as
the source's `row[0]`/`row[1]`/`row[2]` would. -/
def newXrefInsert (s : PDFState) (start : Int) (i : Int) (row : List Nat) :
    Except PyErr PDFState := do
  let r0 ← match row.get? 0 with
    | some v => pure v
    | Option.none => .error .indexError
  let entry : Option (ID × Loc) ←
    if r0 == 1 then do
      let r1 ← match row.get? 1 with
        | some v => pure v
        | Option.none => .error .indexError
      let r2 ← match row.get? 2 with
        | some v => pure v
        | Option.none => .error .indexError
      pure (some (⟨start + i, (r2 : Int)⟩, Loc.int (r1 : Int)))
    else if r0 == 2 then do
      let r1 ← match row.get? 1 with
        | some v => pure v
        | Option.none => .error .indexError
      let r2 ← match row.get? 2 with
        | some v => pure v
        | Option.none => .error .indexError
      pure (some (⟨start + i, 0⟩, Loc.streamRef ⟨(r1 : Int), 0⟩ (r2 : Int)))
    else pure Option.none
  match entry with
  | some (id, loc) =>
      if idDictMem s.xref id then .ok s
      else .ok { s with xref := s.xref ++ [(id, loc)],
                        nextObjectId := max s.nextObjectId id.id }
  | Option.none => .ok s

/-- The `for i in range(size)` loop of one `/Index` pair. -/
def newXrefRows (data : ByteStr) (w : List PyVal) (start : Int) :
    Nat → Int → Nat → PDFState → Except PyErr (PDFState × Nat)
  | 0, _, pos, s => .ok (s, pos)
  | k + 1, i, pos, s => do
      let (row, pos2) ← newXrefRow data w pos []
      let s2 ← newXrefInsert s start i row
      newXrefRows data w start k (i + 1) pos2 s2

/-- The `zip(index[0::2], index[1::2])` loop. -/
def newXrefPairs (data : ByteStr) (w : List PyVal) :
    List (PyVal × PyVal) → Nat → PDFState → Except PyErr PDFState
  | [], _, s => .ok s
  | (sv, zv) :: rest, pos, s => do
      let start ← match sv with
        | .int n => pure n
        | _ => .error (.typeError "Index start is not an int")
      let size ← match zv with
        | .int n => pure n
        | _ => .error (.typeError "Index size is not an int")
      let (s2, pos2) ← newXrefRows data w start size.toNat 0 pos s
      newXrefPairs data w rest pos2 s2

/-- Elements of a list at even / odd positions (`l[0::2]`, `l[1::2]`). -/
def evens {α : Type} : List α → List α
  | [] => []
  | [a] => [a]
  | a :: _ :: rest => a :: evens rest

def odds {α : Type} : List α → List α
  | [] => []
  | [_] => []
  | _ :: b :: rest => b :: odds rest

/-- `RawPDF.parse_new_xref(pos)`: a cross-reference stream.  The object is
read directly (not through the cache), decompressed, and its row table
parsed; the trailer dictionary is the stream object's own dictionary.
A missing `/Size` under a missing `/Index` escapes as a `KeyError` — not
the malformed-PDF error `parse_xref` catches. -/
def RawPDF.parse_new_xref (zinf : ByteStr → Except String ByteStr)
    (fuel : Nat) (s : PDFState) (pos : Int) :
    Except PyErr (PDFState × PyVal) := do
  let (s1, obj0) ← RawPDF.read_object zinf (fuel + 1) s (.int pos)
    Option.none Option.none
  let obj ← decompress zinf s1.securityhandler fuel obj0
  let d ← asRawDict obj.d
  let index ←
    if dictMem d (bs "/Index") then pdfDictGet d (bs "/Index")
    else do
      let sz ← pdfDictGet d (bs "/Size")
      pure (.arr [.int 0, sz])
  let ilist ← match index with
    | .arr a => pure a
    | _ => .error (.typeError "Index is not an array")
  if ilist.length % 2 != 0 then
    .error (.malformed "Index array must be multiple of two")
  else if !dictMem d (bs "/W") then
    .error (.malformed "xref object has no W attribute")
  else do
    let wv ← pdfDictGet d (bs "/W")
    let w ← match wv with
      | .arr a => pure a
      | _ => .error (.typeError "W is not an array")
    let data ← match obj.stream with
      | some st => pure st
      | Option.none => .error (.typeError "stream is None")
    let s2 ← newXrefPairs data w ((evens ilist).zip (odds ilist)) 0 s1
    .ok (s2, obj.d)

/-- The `TRAILER.finditer` loop of `reconstruct_xref`: the first trailer
dictionary containing `/Root` wins (the source returns from inside the
loop). -/
def reconstructTrailerScan (b : ByteStr) (fuel : Nat) :
    List Nat → Except PyErr Int
  | [] => .error (.malformed "no trailer")
  | start :: rest => do
      let (d, _) ← read_dict b fuel (start + 7)
      match d with
      | .dict dd =>
          if dictMem dd (bs "/Root") then .ok ((start : Int) + 7)
          else reconstructTrailerScan b fuel rest
      | _ => reconstructTrailerScan b fuel rest

/-- `RawPDF.reconstruct_xref()`: reset the table, insert every
`N G obj` occurrence in the buffer (unguarded assignment: a later
occurrence of the same number overwrites an earlier one), then find a
trailer dictionary with `/Root`.  The next-id high-water mark keeps its
prior value under the `max`. -/
def RawPDF.reconstruct_xref (fuel : Nat) (s : PDFState) :
    Except PyErr (PDFState × Int) := do
  let s1 := { s with xref := [] }
  let s2 := (objFinditer s.bytes).foldl
    (fun st m =>
      let id : ID := ⟨(m.2.1 : Int), (m.2.2 : Int)⟩
      { st with xref := idDictSet st.xref id (.int (m.1 : Int)),
                nextObjectId := max st.nextObjectId id.id })
    s1
  let p ← reconstructTrailerScan s.bytes fuel (trailerFinditer s.bytes)
  .ok (s2, p)

/-- The loop of the second `verify_xref` (the definition that is in
effect): dereference stream references once through the table, then
demand an `N G obj` header at every offset. -/
def verifyXrefGo (s : PDFState) :
    List (ID × Loc) → Except PyErr Unit
  | [] => .ok ()
  | (key, loc) :: rest => do
      let loc2 ← match loc with
        | .streamRef cid _ =>
            (match idDictFind s.xref cid with
             | some l2 => pure l2
             | Option.none => .error (.keyError (fmtInt cid.id)))
        | _ => pure loc
      match loc2 with
      | .int p =>
          if objStartB (pySliceI s.bytes p (p + 32)) then verifyXrefGo s rest
          else
            .error (.malformed ("Object " ++ fmtInt key.id
              ++ " doesnt start with obj"))
      | .streamRef _ _ =>
          .error (.typeError "slice indices must be integers")

/-- `RawPDF.verify_xref()` (second definition, the one Python keeps). -/
def RawPDF.verify_xref (s : PDFState) : Except PyErr Unit :=
  verifyXrefGo s s.xref

/-- What `parse_xref` hands to `parse_trailer`: a byte position (classic
table or reconstruction) or the already-parsed dictionary (stream
xref). -/
inductive TrailerInfo where
  | atPos (p : Int)
  | asDict (d : PyVal)

/-- The `try` body of `RawPDF.parse_xref`: classify the bytes at `pos`,
parse the section, then verify the table. -/
def RawPDF.parse_xref_attempt (zinf : ByteStr → Except String ByteStr)
    (fuel : Nat) (s : PDFState) (pos : Int) :
    Except PyErr (PDFState × TrailerInfo) :=
  if pos ≥ 0 && objStartB (pySliceI s.bytes pos (pos + 32)) then do
    let s1 := { s with xrefType := some "new" }
    let (s2, d) ← RawPDF.parse_new_xref zinf fuel s1 pos
    let _ ← RawPDF.verify_xref s2
    .ok (s2, .asDict d)
  else if pos ≥ 0 && xrefMatchB (pySliceI s.bytes pos (pos + 32)) then do
    let s1 := { s with xrefType := some "old" }
    let (s2, p) ← RawPDF.parse_old_xref s1 pos
    let _ ← RawPDF.verify_xref s2
    .ok (s2, .atPos p)
  else .error (.malformed "bad startxref pointer")

/-- `RawPDF.parse_xref(pos)`: the attempt, with the malformed-PDF error —
and only that error — caught and turned into full reconstruction.
The partial in-place mutations of a failed attempt (offset fixups, table
entries that `reconstruct_xref` resets anyway, the next-id high-water
mark) are discarded by this pure model; nothing downstream of a broken
parse reads them (`read_root` leaves its loop on `"broken"` before using
them), and no theorem below depends on them. -/
def RawPDF.parse_xref (zinf : ByteStr → Except String ByteStr)
    (fuel : Nat) (s : PDFState) (pos : Int) :
    Except PyErr (PDFState × TrailerInfo) :=
  match RawPDF.parse_xref_attempt zinf fuel s pos with
  | .error (.malformed _) => do
      let s1 := { s with xrefType := some "broken" }
      let (s2, p) ← RawPDF.reconstruct_xref fuel s1
      .ok (s2, .atPos p)
  | r => r

/-- `RawPDF.parse_trailer(trailerinfo)`. -/
def RawPDF.parse_trailer (fuel : Nat) (s : PDFState) (ti : TrailerInfo) :
    Except PyErr PyVal :=
  match ti with
  | .asDict d => .ok d
  | .atPos p =>
      if p < 0 then .error (.valueError "negative trailer pos not modelled")
      else do
        let (d, _) ← read_dict s.bytes fuel p.toNat
        .ok d

/-- `RawPDF.parse_eof()`: locate `%%EOF` and the `startxref` before it;
the sentinel result `-1` stands for the source's early `return -1`
(missing `startxref`, unparsable offset, or a table positioned after
`startxref`), each of which only warns. -/
def RawPDF.parse_eof (s : PDFState) : Except PyErr (PDFState × Int) := do
  let eof := pyRfind s.bytes (bs "%%EOF") 0 s.bytes.length
  if eof < 0 then .error (.malformed "no EOF marker")
  else do
    let startxref := pyRfind s.bytes (bs "startxref") 0 eof.toNat
    if startxref < 0 then
      -- `pos = self.bytes.rfind("xref")` is computed and discarded
      .ok (s, -1)
    else
      match pyInt (pySliceI s.bytes (startxref + 9) eof) with
      | Option.none => .ok (s, -1)
      | some n =>
          let pos := n + s.offset
          if pos > startxref then .ok (s, -1)
          else if pos < 0 then .error (.malformed "no xref table")
          else .ok ({ s with firstXrefPos := some pos }, pos)

/-- The header stage of `RawPDF.read_root`: find `%PDF-` (the literal
`bytes[0:4] != "%PDF-"` test compares four bytes against five and is
always true, so the `find` always runs), record the preamble offset,
parse the `M.m` version. -/
def readHeader (s : PDFState) : Except PyErr PDFState := do
  let offset ←
    if pySlice s.bytes 0 4 != bs "%PDF-" then
      let i := pyFind s.bytes (bs "%PDF-") 0
      if i < 0 then .error (.malformed "no PDF header") else pure i
    else pure 0
  let version := pySliceI s.bytes (offset + 5) (offset + 8)
  let c1 ← pyIndex version 1
  if c1 != 46 then .error (.malformed "bad version")
  else do
    let c0 ← pyIndex version 0
    let c2 ← pyIndex version 2
    let v0 ← match pyInt [c0] with
      | some n => pure n
      | Option.none => .error (.valueError "invalid literal for int")
    let v2 ← match pyInt [c2] with
      | some n => pure n
      | Option.none => .error (.valueError "invalid literal for int")
    .ok { s with offset := offset, version := (v0, v2) }

/-- `v and isinstance(v, ID) or isinstance(v, PDFDict)` — the encrypt
condition with Python's precedence. -/
def encryptCond (v : PyVal) : Bool :=
  (pyTruthy v && (match v with | .ref _ => true | _ => false))
  || (match v with | .dict _ => true | _ => false)

/-- The resolution tail of `read_root`: `/Root`, `/Info`, `/ID`,
`/Encrypt` from the accumulated trailer values.  Constructing the
`SecurityHandler` needs the external md5 and, under Python 3, raises
inside `rc4` for any real encrypted file; no claim loads an encrypted
document, so the construction is cut off with a model-boundary error. -/
def RawPDF.read_root_finish (zinf : ByteStr → Except String ByteStr)
    (fuel : Nat) (s : PDFState) (rootid infoid encryptid fileId : PyVal) :
    Except PyErr PDFState := do
  let (s1, root) ← RawPDF.get_object zinf fuel s rootid Option.none
  let s2 := { s1 with root := some root, info := Option.none,
                      encrypt := Option.none, fileId := Option.none }
  let s3 ←
    if pyTruthy infoid then do
      let (st, info) ← RawPDF.get_object zinf fuel s2 infoid Option.none
      pure { st with info := some info }
    else pure s2
  let s4 := if pyTruthy fileId then { s3 with fileId := some fileId } else s3
  if encryptCond encryptid then do
    let (s5, enc) ← RawPDF.get_object zinf fuel s4 encryptid Option.none
    let _ := { s5 with encrypt := some enc }
    .error (.valueError "SecurityHandler construction not modelled")
  else .ok s4

/-- The `while 1` loop of `read_root`: parse a section, read its trailer,
take `/Root`/`/Info`/`/Encrypt`/`/ID` from the first trailer, follow
`/Prev` unless reconstruction was entered. -/
def RawPDF.read_root_loop (zinf : ByteStr → Except String ByteStr) :
    Nat → PDFState → Int → PyVal → PyVal → PyVal → PyVal →
    Except PyErr PDFState
  | 0, _, _, _, _, _, _ => .error .fuel
  | fuel + 1, s, pos, rootid, infoid, encryptid, fileId => do
      let (s1, ti) ← RawPDF.parse_xref zinf fuel s pos
      let trailerV ← RawPDF.parse_trailer fuel s1 ti
      let td ← asRawDict trailerV
      let (rootid2, infoid2, encryptid2, fileId2) ←
        if !pyTruthy rootid then
          if !dictMem td (bs "/Root") then .error (.malformed "no root object")
          else do
            let rv ← pdfDictGet td (bs "/Root")
            pure (rv, pdfDictGetD td (bs "/Info") .none,
                  pdfDictGetD td (bs "/Encrypt") .none,
                  pdfDictGetD td (bs "/ID") .none)
        else pure (rootid, infoid, encryptid, fileId)
      if !dictMem td (bs "/Prev") then
        RawPDF.read_root_finish zinf (fuel + 1) s1 rootid2 infoid2 encryptid2
          fileId2
      else do
        let prevV ← pdfDictGet td (bs "/Prev")
        let prev ← match prevV with
          | .int n => pure n
          | _ => .error (.typeError "Prev is not an int")
        let pos2 := prev + s1.offset
        if s1.xrefType == some "broken" then
          RawPDF.read_root_finish zinf (fuel + 1) s1 rootid2 infoid2
            encryptid2 fileId2
        else
          RawPDF.read_root_loop zinf fuel s1 pos2 rootid2 infoid2 encryptid2
            fileId2

/-- `RawPDF.read_root()`. -/
def RawPDF.read_root (zinf : ByteStr → Except String ByteStr) (fuel : Nat)
    (s : PDFState) : Except PyErr PDFState := do
  let s1 ← readHeader s
  let (s2, pos) ← RawPDF.parse_eof s1
  RawPDF.read_root_loop zinf fuel s2 pos .none .none .none .none

/-- `RawPDF.__init__(data)` for `data is not None`: keep the buffer and
bootstrap from the trailer. -/
def rawLoad (zinf : ByteStr → Except String ByteStr) (fuel : Nat)
    (data : ByteStr) : Except PyErr PDFState :=
  RawPDF.read_root zinf fuel (freshState data)

/-- `rawLoad` with the `startxref` target replaced by `pos`: the load an
interpreter performs on the file whose trailing `startxref` digits were
corrupted to point at byte `pos`.  (Those digits sit after every object
and after the one `trailer` keyword, and match neither the `N G obj` nor
the `trailer` pattern, so rewriting them changes nothing else either
parser or the reconstruction scan reads.) -/
def rawLoadFrom (zinf : ByteStr → Except String ByteStr) (fuel : Nat)
    (data : ByteStr) (pos : Int) : Except PyErr PDFState := do
  let s1 ← readHeader (freshState data)
  RawPDF.read_root_loop zinf fuel s1 pos .none .none .none .none

/-- The incremental part alone (header, then the `parse_xref` attempt
without its reconstruction fallback), for stating when a startxref
target makes incremental parsing fail with the malformed-PDF error. -/
def incrementalAttempt (zinf : ByteStr → Except String ByteStr)
    (fuel : Nat) (data : ByteStr) (pos : Int) :
    Except PyErr (PDFState × TrailerInfo) := do
  let s1 ← readHeader (freshState data)
  RawPDF.parse_xref_attempt zinf fuel s1 pos

/-- `RawPDF.__init__(None)`: an empty document with a fresh `/Catalog`
root (the `/Type` assignment reaches the cache through aliasing). -/
def rawInitNew : PDFState :=
  let (s1, o) := RawPDF.create_object (freshState []) Option.none Option.none
  let o2 := objSetD o (bs "/Type") (.str (bs "/Catalog"))
  let id := o2.id.getD ⟨0, 0⟩
  { s1 with cache := idDictSet s1.cache id o2, root := some (.obj o2),
            info := Option.none, encrypt := Option.none,
            fileId := Option.none }

/-- `RawPDF.__init__(data)`. -/
def RawPDF.init (zinf : ByteStr → Except String ByteStr) (fuel : Nat)
    (data : Option ByteStr) : Except PyErr PDFState :=
  match data with
  | some d => rawLoad zinf fuel d
  | Option.none => .ok rawInitNew

/-! ### The `PDF` subclass: page-tree flattening -/

/-- A resolved value's dictionary view, for `in` and `[...]` on what
`get_object` returned. -/
def ovRawDict (ov : ObjOrVal) : Except PyErr (List (ByteStr × PyVal)) :=
  match ov with
  | .obj o => asRawDict o.d
  | .val (.dict d) => .ok d
  | .val _ => .error (.typeError "argument is not a container")

/-- The `.d` attribute of a resolved value (`self.get_object(o).d`). -/
def ovDAttr (ov : ObjOrVal) : Except PyErr PyVal :=
  match ov with
  | .obj o => .ok o.d
  | .val (.dict d) => .ok (.dict d)
  | .val _ => .error (.attributeError "d")

/-- The identifier of a resolved value (used as the modelled parent
back-reference). -/
def ovId (ov : ObjOrVal) : Option ID :=
  match ov with
  | .obj o => o.id
  | .val _ => Option.none

/-- `RawPDF.wipe_object(o)`: remove from both the cache and the table
(`KeyError`/`AttributeError` exactly where Python would raise them). -/
def RawPDF.wipe_object (s : PDFState) (o : ObjOrVal) :
    Except PyErr PDFState := do
  let oo ← match o with
    | .obj oo => pure oo
    | .val _ => .error (.attributeError "id")
  let id ← match oo.id with
    | some i => pure i
    | Option.none => .error (.attributeError "id")
  let c2 ← idDictDel s.cache id
  let x2 ← idDictDel s.xref id
  .ok { s with cache := c2, xref := x2 }

/-- `RawPDF.wipe_objects(objects)`. -/
def RawPDF.wipe_objects : PDFState → List ObjOrVal → Except PyErr PDFState
  | s, [] => .ok s
  | s, o :: rest => do
      let s2 ← RawPDF.wipe_object s o
      RawPDF.wipe_objects s2 rest

/-- A call in the mutually recursive pair `PDF.parse_page` / its
`for child in o` loop; one fueled function over this tag (see `RMode`),
with the source method as a wrapper. -/
inductive PMode where
  | page (idv : PyVal) (parent : Option ID) (objs : List ObjOrVal)
  | children (kids : List PyVal) (parent : Option ID) (objs : List ObjOrVal)
      (acc : List PDFObj)

/-- The body of the `parse_page` pair.  The `page` arm resolves the node
(defaulting its type to `/Page`), records it in the visited list,
recurses through `/Kids` (through one level of indirection when the
entry is a reference), or tags a leaf with its parent (also through the
cache alias) and returns it.  The `children` arm is the loop with its
`except KeyError` tolerance ("couldn't read page"); a failed child's
partial cache insertions stay in Python but are discarded with the error
in this pure model (the arm is not exercised by any theorem).  Model
boundaries (documented, never exercised): iterating a non-array
`/Kids`, and a leaf that resolved to a bare `PDFType` value. -/
def parsePageGo (zinf : ByteStr → Except String ByteStr) :
    Nat → PDFState → PMode →
    Except PyErr (PDFState × List PDFObj × List ObjOrVal)
  | 0, _, _ => .error .fuel
  | fuel + 1, s, .page idv parent objs => do
      let (s1, pg) ← RawPDF.get_object zinf (fuel + 1) s idv
        (some (bs "/Page"))
      let objs1 := objs ++ [pg]
      let d ← ovRawDict pg
      if dictMem d (bs "/Kids") then do
        let kv ← pdfDictGet d (bs "/Kids")
        let (s2, kidsVal, objs2) ←
          match kv with
          | .ref _ => do
              let (st, c) ← RawPDF.get_object zinf (fuel + 1) s1 kv
                Option.none
              let dv ← ovDAttr c
              pure (st, dv, objs1 ++ [ObjOrVal.val dv])
          | _ => pure (s1, kv, objs1)
        let kids ← match kidsVal with
          | .arr a => pure a
          | _ => .error (.typeError "iteration of non-array Kids not modelled")
        parsePageGo zinf fuel s2 (.children kids (ovId pg) objs2 [])
      else
        match pg with
        | .obj o =>
            let o2 := { o with parent := parent }
            let s2 := match o.id with
              | some pid => { s1 with cache := idDictSet s1.cache pid o2 }
              | Option.none => s1
            .ok (s2, [o2], objs1)
        | .val _ => .error (.typeError "bare value leaf page not modelled")
  | _ + 1, s, .children [] _ objs acc => .ok (s, acc, objs)
  | fuel + 1, s, .children (child :: rest) parent objs acc =>
      match parsePageGo zinf fuel s (.page child parent objs) with
      | .ok (s2, ps, objs2) =>
          parsePageGo zinf fuel s2 (.children rest parent objs2 (acc ++ ps))
      | .error (.keyError _) =>
          parsePageGo zinf fuel s (.children rest parent objs acc)
      | .error e => .error e

/-- `PDF.parse_page(id, parent, objects)`. -/
def PDF.parse_page (zinf : ByteStr → Except String ByteStr) (fuel : Nat)
    (s : PDFState) (idv : PyVal) (parent : Option ID)
    (objs : List ObjOrVal) :
    Except PyErr (PDFState × List PDFObj × List ObjOrVal) :=
  parsePageGo zinf (fuel + 1) s (.page idv parent objs)

/-- `PDF.parse_pages_and_cleanup()`: demand a `/Pages` entry in the root,
flatten, wipe every visited container, then strip each leaf page's
identifier and `/Parent` entry. -/
def PDF.parse_pages_and_cleanup (zinf : ByteStr → Except String ByteStr)
    (fuel : Nat) (s : PDFState) :
    Except PyErr (PDFState × List PDFObj) := do
  let rd ← match s.root with
    | some ov => ovRawDict ov
    | Option.none => .error (.attributeError "root")
  if !dictMem rd (bs "/Pages") then
    .error (.malformed "no /Pages reference in /Root")
  else do
    let pv ← pdfDictGet rd (bs "/Pages")
    let (s1, pages, objs) ← PDF.parse_page zinf fuel s pv Option.none []
    let s2 ← RawPDF.wipe_objects s1 objs
    let pages2 ← pages.mapM (fun p => do
      let d ← asRawDict p.d
      let d2 ← dictDel d (bs "/Parent")
      pure { p with id := Option.none, d := PyVal.dict d2 })
    .ok (s2, pages2)

/-- `PDF.__init__(data)`: the `RawPDF` bootstrap, then page flattening.
`PDF.load(filename)` is this applied to the file's bytes. -/
def PDF.init (zinf : ByteStr → Except String ByteStr) (fuel : Nat)
    (data : Option ByteStr) : Except PyErr (PDFState × List PDFObj) := do
  let s ← RawPDF.init zinf fuel data
  PDF.parse_pages_and_cleanup zinf fuel s

/-! ### A concrete well-formed file

A minimal single-revision document with a classic cross-reference table:
three objects (catalog, pages node, one page), a correct table whose
offsets are computed from the construction itself, a trailer with
`/Root` and `/Size`, and a correct `startxref`. -/

/-- 10-digit zero-padded decimal, as the classic table's offset field. -/
def pad10 (n : Nat) : ByteStr :=
  let digits := bs (fmtNat n)
  List.replicate (10 - digits.length) 48 ++ digits

def fHeader : ByteStr := bs "%PDF-1.4\n"
def fObj1 : ByteStr := bs "1 0 obj << /Type /Catalog /Pages 2 0 R >> endobj\n"
def fObj2 : ByteStr :=
  bs "2 0 obj << /Type /Pages /Kids [3 0 R] /Count 1 >> endobj\n"
def fObj3 : ByteStr :=
  bs "3 0 obj << /Type /Page /Parent 2 0 R /MediaBox [0 0 800 600] >> endobj\n"

def fOfs1 : Nat := fHeader.length
def fOfs2 : Nat := fOfs1 + fObj1.length
def fOfs3 : Nat := fOfs2 + fObj2.length
def fXrefPos : Nat := fOfs3 + fObj3.length

def fXref : ByteStr :=
  bs "xref\n0 4\n0000000000 65535 f \n"
  ++ pad10 fOfs1 ++ bs " 00000 n \n"
  ++ pad10 fOfs2 ++ bs " 00000 n \n"
  ++ pad10 fOfs3 ++ bs " 00000 n \n"

def fTail : ByteStr :=
  bs "trailer\n<< /Root 1 0 R /Size 4 >>\nstartxref\n"
  ++ bs (fmtNat fXrefPos) ++ bs "\n%%EOF"

/-- The whole file. -/
def fileF : ByteStr := fHeader ++ fObj1 ++ fObj2 ++ fObj3 ++ fXref ++ fTail

/-! ## Theorems -/

/-! ### C1: identifier equality, hashing, and table lookup -/

/-- `idEq` is determined by the object numbers. -/
theorem idEq_of_id_eq {a b : ID} (h : a.id = b.id) : idEq a b = true := by
  simp [idEq, h]

/-- `idDictFind` on a cons whose head matches. -/
theorem idDictFind_cons_pos {α : Type} (p : ID × α) (t : List (ID × α))
    (k : ID) (h : idEq p.1 k = true) : idDictFind (p :: t) k = some p.2 := by
  unfold idDictFind
  rw [List.find?_cons_of_pos t h]
  rfl

/-- `idDictFind` on a cons whose head does not match. -/
theorem idDictFind_cons_neg {α : Type} (p : ID × α) (t : List (ID × α))
    (k : ID) (h : idEq p.1 k = false) :
    idDictFind (p :: t) k = idDictFind t k := by
  unfold idDictFind
  rw [List.find?_cons_of_neg t (by simp [h])]

/-- The replace arm of `idDictSet` makes an `idEq`-equivalent lookup find
the new value. -/
theorem idDictFind_map_replace {α : Type} (k k2 : ID) (v : α)
    (h : k.id = k2.id) :
    ∀ (t : List (ID × α)), (∃ x ∈ t, idEq x.1 k = true) →
      idDictFind (t.map (fun p => if idEq p.1 k = true then (p.1, v) else p))
        k2 = some v := by
  intro t
  induction t with
  | nil => intro hm; simp at hm
  | cons p rest ih =>
      intro hm
      rw [List.map_cons]
      cases hp : idEq p.1 k with
      | true =>
          rw [if_pos rfl]
          exact idDictFind_cons_pos (p.1, v) _ k2
            (by simpa [idEq, ← h] using hp)
      | false =>
          rw [if_neg (by simp)]
          rw [idDictFind_cons_neg p _ k2 (by simpa [idEq, ← h] using hp)]
          refine ih ?_
          rcases hm with ⟨x, hx, he⟩
          rcases List.mem_cons.mp hx with hx1 | hx1
          · rw [hx1] at he; rw [hp] at he; exact absurd he (by simp)
          · exact ⟨x, hx1, he⟩

/-- Replacing through `idDictSet` makes lookups find the new value: an
entry stored under one generation is found under any other with the same
object number. -/
theorem idDictFind_idDictSet_same {α : Type} (t : List (ID × α))
    (k k2 : ID) (v : α) (h : k.id = k2.id) :
    idDictFind (idDictSet t k v) k2 = some v := by
  unfold idDictSet
  by_cases hm : idDictMem t k = true
  · rw [if_pos hm]
    rw [idDictMem, List.any_eq_true] at hm
    exact idDictFind_map_replace k k2 v h t hm
  · rw [if_neg hm]
    have hnone : List.find? (fun p : ID × α => idEq p.1 k2) t = none := by
      rw [List.find?_eq_none]
      intro x hx hc
      exact hm (by
        rw [idDictMem, List.any_eq_true]
        exact ⟨x, hx, by simpa [idEq, ← h] using hc⟩)
    unfold idDictFind
    rw [List.find?_append, hnone]
    simp only [Option.none_or]
    simp [List.find?, idEq, h]

/-- C1: identifier equality and hashing ignore the generation number: two
identifiers with the same object number compare equal under `ID.__eq__`,
hash equally under `ID.__hash__`, and a cross-reference table lookup
keyed by one finds an entry stored under the other. -/
theorem c1_id_equality_ignores_generation (n g1 g2 : Int) :
    idEq ⟨n, g1⟩ ⟨n, g2⟩ = true
    ∧ idHash ⟨n, g1⟩ = idHash ⟨n, g2⟩
    ∧ ∀ (t : List (ID × Loc)) (v : Loc),
        idDictFind (idDictSet t ⟨n, g1⟩ v) ⟨n, g2⟩ = some v := by
  refine ⟨idEq_of_id_eq rfl, rfl, ?_⟩
  intro t v
  exact idDictFind_idDictSet_same t ⟨n, g1⟩ ⟨n, g2⟩ v rfl

/-! ### C6: the RC4 cipher -/

/-- The keystream loop is an involution: each step's state and keystream
byte depend only on the position, never on the text byte, and xor
cancels. -/
theorem rc4Go_involution (cs : ByteStr) :
    ∀ (st : List Nat × Nat) (i : Nat), rc4Go st i (rc4Go st i cs) = cs := by
  induction cs with
  | nil => intro st i; rfl
  | cons c rest ih =>
      intro st i
      simp only [rc4Go]
      rw [Nat.xor_cancel_right]
      rw [ih]

/-- The spelled-out cipher is an involution for every key and message. -/
theorem rc4_alg_involution (text key : ByteStr) :
    rc4_alg (rc4_alg text key) key = text := by
  cases text with
  | nil => rfl
  | cons c rest =>
      simp only [rc4_alg, List.isEmpty_cons, Bool.false_eq_true, if_false,
        rc4Go, List.isEmpty_nil]
      rw [Nat.xor_cancel_right]
      rw [rc4Go_involution]

/-- C6: the claimed RC4 round trip.  The claim is right about the cipher
the source spells out — `rc4_alg`, textbook RC4, is an involution for
every key (in particular those of length 5 to 16) — but the function as
it stands in this Python 3 module raises `NameError` (`xrange`) for
every nonempty input, so `decrypt(encrypt(m, key), key)` never runs:
the empty message is the only input it round-trips. -/
theorem c6_rc4_symmetry :
    rc4 (bs "A") (bs "apple") = .error (.nameError "xrange")
    ∧ rc4 [] (bs "apple") = .ok []
    ∧ ∀ (text key : ByteStr), rc4_alg (rc4_alg text key) key = text :=
  ⟨rfl, rfl, rc4_alg_involution⟩

/-! ### C7: the radix-85 filter -/

/-- C7: behaviour of the `/ASCII85Decode` reversal.  A complete
5-character group decodes to its 4 bytes and `~>` stops the scan, as
claimed; but `z` emits a single zero byte (not a four-byte zero group),
and a final partial group of 2 to 4 characters raises `NameError` on the
unbound name `stream` (the arm is marked `# untested` in the source)
instead of emitting its decoded bytes. -/
theorem c7_ascii85_decode :
    ascii85Decode (bs "!!!!#") = .ok [0, 0, 0, 2]
    ∧ ascii85Decode (bs "!!!!#~>zzz") = .ok [0, 0, 0, 2]
    ∧ ascii85Decode (bs "z~>") = .ok [0]
    ∧ ascii85Decode (bs "!!~>") = .error (.nameError "stream")
    ∧ ascii85Decode (bs "!!!~>") = .error (.nameError "stream")
    ∧ ascii85Decode (bs "!!!!~>") = .error (.nameError "stream") :=
  ⟨rfl, rfl, rfl, rfl, rfl, rfl⟩

/-! ### C8: the predictor -/

/-- The `/DecodeParms` dictionaries used in the C8 statements. -/
def predParams (p : Int) : PyVal :=
  .dict [(bs "/Predictor", .int p), (bs "/Columns", .int 3)]

/-- C8 counterexample: a row whose leading tag byte is 3 — not one of the
handled 0/1/2 — is decoded as an all-zero row with no error, where the
claim demands a hard error. -/
theorem c8_counterexample_unknown_tag :
    predict [3, 7, 7, 7] (predParams 10) = .ok (some [0, 0, 0]) := rfl

/-- C8 (amended): rows are `/Columns + 1` bytes; a tag byte of 2 ("up")
reconstructs against the previous row exactly as the claimed example
says; a tag byte outside 0/1/2 silently decodes to an all-zero row (the
row loop has no error arm — shown in general for `predictRowAt`); and
the "none" (0) and "sub" (1) tag arms fail with Python type errors
instead of reconstructing. -/
theorem c8_predictor_rows :
    predict ([2, 5, 5, 5] ++ [2, 1, 1, 1]) (predParams 12)
      = .ok (some [5, 5, 5, 6, 6, 6])
    ∧ predict [4, 9, 9, 9] (predParams 10) = .ok (some [0, 0, 0])
    ∧ predict [0, 9, 9, 9] (predParams 10)
      = .error (.typeError "an integer is required (got type str)")
    ∧ predict [1, 9, 9, 9] (predParams 10)
      = .error (.typeError "can only concatenate str (not int) to str")
    ∧ ∀ (indata : ByteStr) (pos width : Nat) (prev : List PyByte)
        (tag : Nat), pyIndex indata pos = .ok tag → tag ≠ 0 → tag ≠ 1 →
        tag ≠ 2 →
        predictRowAt indata pos width prev
          = .ok (List.replicate width (.int 0)) := by
  refine ⟨rfl, rfl, rfl, rfl, ?_⟩
  intro indata pos width prev tag h h0 h1 h2
  simp only [predictRowAt, h]
  simp [Bind.bind, Except.bind, h0, h1, h2]

/-- Witness for the universal part of C8: tag byte 9 on a concrete
buffer. -/
theorem c8_predictor_rows_witness :
    pyIndex [9, 1, 2, 3] 0 = .ok 9
    ∧ predictRowAt [9, 1, 2, 3] 0 3 [] = .ok (List.replicate 3 (.int 0)) :=
  ⟨rfl, c8_predictor_rows.2.2.2.2 [9, 1, 2, 3] 0 3 [] 9 rfl
    (by decide) (by decide) (by decide)⟩

/-! ### C2: programmatic construction -/

/-- C2: the round-trip claim presupposes documents produced purely by
programmatic construction, but `PDF.__init__` runs
`parse_pages_and_cleanup` unconditionally, and on a fresh document the
just-created `/Catalog` root has no `/Pages` entry, so constructing the
empty document already raises the malformed-PDF error: no document can
be produced purely by programmatic construction, and `load(write(D))`
never runs. -/
theorem c2_programmatic_construction_raises :
    PDF.init zlibStub 100 Option.none
      = .error (.malformed "no /Pages reference in /Root") := rfl

/-! ### C5: unsupported filter names -/

/-- C5 (amended): for an object that is no longer flagged encrypted, an
unsupported front filter name stops decompression with no error and
leaves the object exactly as it was — the popped name is pushed back,
rebuilding the original filter list, and the payload keeps its current
(partially decompressed) state. -/
theorem c5_unknown_filter_stops
    (zinf : ByteStr → Except String ByteStr)
    (sec : Option SecurityHandler) (n : Nat) (o : PDFObj) (f : PyVal)
    (rest : List PyVal) (henc : o.encrypted = false)
    (hf : o.filters = f :: rest)
    (h1 : pyEqStr f (bs "/FlateDecode") = false)
    (h2 : pyEqStr f (bs "/ASCII85Decode") = false) :
    decompress zinf sec (n + 1) o = .ok o := by
  simp only [decompress, henc, Bool.false_eq_true, if_false, decompressLoop,
    hf, List.isEmpty_cons, decompressOne, h1, h2]

/-- Witness for C5: a concrete unencrypted object whose front filter is
the unsupported `/Crypt`. -/
def c5wObj : PDFObj :=
  { kind := .dictObj, id := some ⟨4, 0⟩, d := .dict [],
    stream := some (bs "payload"), encrypted := false,
    filters := [.str (bs "/Crypt")], parent := Option.none }

theorem c5_unknown_filter_stops_witness :
    c5wObj.encrypted = false
    ∧ c5wObj.filters = [.str (bs "/Crypt")]
    ∧ pyEqStr (.str (bs "/Crypt")) (bs "/FlateDecode") = false
    ∧ decompress zlibStub Option.none 3 c5wObj = .ok c5wObj :=
  ⟨rfl, rfl, rfl,
    c5_unknown_filter_stops zlibStub Option.none 2 c5wObj
      (.str (bs "/Crypt")) [] rfl rfl rfl rfl⟩

/-- C5 counterexample: for an object still flagged encrypted (with a
nonempty payload), `decompress` first decrypts through the security
handler, whose `rc4` raises `NameError` under Python 3 — so "calling
decompress raises no error" fails for such objects even though their
front filter is unsupported. -/
def c5encObj : PDFObj :=
  { kind := .dictObj, id := some ⟨7, 0⟩, d := .dict [],
    stream := some (bs "A"), encrypted := true,
    filters := [.str (bs "/Bogus")], parent := Option.none }

theorem c5_counterexample_encrypted :
    decompress zlibStub
      (some { key := bs "01234", md5 := fun _ => List.replicate 16 0 })
      9 c5encObj = .error (.nameError "xrange") := rfl

/-! ### C9: streams whose declared length undercounts -/

/-- Indexing past a left factor of an append. -/
theorem getD_append_offset (l1 l2 : ByteStr) (k : Nat) :
    (l1 ++ l2).getD (l1.length + k) 0 = l2.getD k 0 := by
  simp [List.getD, List.getElem?_append_right (Nat.le_add_right _ _),
    Nat.add_sub_cancel_left]

/-- `skip_whitespace` stops at once on a byte that is neither `%` nor
whitespace. -/
theorem skip_whitespace_stop (b : ByteStr) (pos : Nat)
    (hlt : pos < b.length) (h37 : b.getD pos 0 ≠ 37)
    (hws : wsChar (b.getD pos 0) = false) :
    skip_whitespace b pos = .ok pos := by
  unfold skip_whitespace
  rw [swsGo.eq_2]
  rw [if_pos hlt]
  rw [if_neg (by simpa using h37)]
  simp only [Bind.bind, Except.bind, pure, Except.pure]
  rw [if_neg (by rw [hws]; simp)]

/-- Slicing past a left factor of an append. -/
theorem pySlice_append_shift (l1 l2 : ByteStr) (a b : Nat) :
    pySlice (l1 ++ l2) (l1.length + a) (l1.length + b) = pySlice l2 a b := by
  unfold pySlice
  rw [List.take_append, List.drop_append]

/-- `findGo` finds the first occurrence: if no occurrence starts before
`m` and one starts at `m`, the scan returns `i + m`. -/
theorem findGo_first (sub : ByteStr) (_hne : sub ≠ []) :
    ∀ (m : Nat) (l : ByteStr) (i : Nat),
      (∀ j, j < m → ¬ sub.isPrefixOf (l.drop j) = true) →
      sub.isPrefixOf (l.drop m) = true →
      findGo sub i l = ((i : Int) + m) := by
  intro m
  induction m with
  | zero =>
      intro l i _ hpre
      cases l with
      | nil =>
          simp only [List.drop_nil] at hpre
          simp [findGo, hpre]
      | cons c rest =>
          simp only [findGo]
          rw [if_pos (by simpa using hpre)]
          simp
  | succ m ih =>
      intro l i hj hpre
      cases l with
      | nil =>
          exfalso
          have h0 := hj 0 (Nat.succ_pos m)
          simp only [List.drop_nil] at hpre h0
          exact h0 hpre
      | cons c rest =>
          simp only [findGo]
          rw [if_neg (by simpa using hj 0 (Nat.succ_pos m))]
          rw [ih rest (i + 1)
            (fun j hjm => by simpa using hj (j + 1) (by omega))
            (by simpa using hpre)]
          push_cast
          ring

/-- C9 counterexample: a stream whose declared `/Length` 3 undercounts
the 5-byte payload `ABCDE`.  Reading succeeds with a diagnostic, but the
captured payload is the 3 declared bytes (`ABC`), not the bytes up to
the `endstream` marker (`ABCDE `); and the cursor is advanced by the
*absolute* index of the marker (cursor `20 + 23 = 43`), not to the
position after the marker (`32`). -/
def c9buf : ByteStr := bs "0123456789stream\nABCDE endstream x"

theorem c9_counterexample :
    read_stream c9buf 10 3
      = .ok (bs "ABC", 43,
          ["incorrect stream length (off by 3 bytes at pos 20)"])
    ∧ pySliceI c9buf 17 (pyFind c9buf (bs "endstream") 17) = bs "ABCDE "
    ∧ bs "ABC" ≠ bs "ABCDE "
    ∧ (43 : Nat) ≠ 23 + 9 := by
  refine ⟨rfl, rfl, ?_, by decide⟩
  decide

/-- C9 (amended): on a stream `stream\n<payload>endstream<post>` whose
declared length `len` undercounts the payload (first marker occurrence
at the payload's end, byte at `len` not whitespace or `%`), reading does
not fail: the parser scans forward for `endstream`, issues the
incorrect-stream-length diagnostic, captures exactly the `len` declared
bytes — not the bytes up to the marker — and adds the marker's absolute
buffer index to the cursor, leaving it at `(7+len) + (7+|payload|)`
rather than just after the marker. -/
theorem c9_undercount_read_stream
    (payload post : ByteStr) (len : Nat)
    (hpos : 0 < len) (hlt : len < payload.length)
    (hc : wsChar (payload.getD len 0) = false)
    (hpc : payload.getD len 0 ≠ 37)
    (hnom : ∀ j, len ≤ j → j < payload.length →
      ¬ (bs "endstream").isPrefixOf
        (payload.drop j ++ (bs "endstream" ++ post)) = true) :
    read_stream (bs "stream" ++ ([10] ++ (payload ++ (bs "endstream" ++ post))))
      0 (len : Int)
      = .ok (payload.take len,
          (7 + len) + (7 + payload.length),
          ["incorrect stream length (off by "
            ++ fmtInt ((payload.length : Int) - (len : Int))
            ++ " bytes at pos " ++ fmtNat (7 + len) ++ ")"]) := by
  set B : ByteStr :=
    bs "stream" ++ ([10] ++ (payload ++ (bs "endstream" ++ post))) with hB
  have hBassoc :
      B = (bs "stream" ++ [10]) ++ (payload ++ (bs "endstream" ++ post)) := by
    rw [hB, List.append_assoc]
  have h7eq : (bs "stream" ++ [10]).length = 7 := rfl
  have hBlen : B.length = 16 + payload.length + post.length := by
    rw [hBassoc]
    simp only [List.length_append, h7eq,
      show (bs "endstream").length = 9 from rfl]
    omega
  -- step 1: skip_whitespace stops at once on the letter s
  have h1 : skip_whitespace B 0 = .ok 0 := by
    refine skip_whitespace_stop B 0 (by omega) ?_ ?_
    · rw [show B.getD 0 0 = 115 from rfl]; decide
    · rw [show B.getD 0 0 = 115 from rfl]; decide
  -- the byte at 7 + len is the payload byte at len
  have hgd : B.getD (7 + len) 0 = payload.getD len 0 := by
    rw [hBassoc]
    rw [show (7 : Nat) + len = (bs "stream" ++ [10]).length + len from by
      rw [h7eq]]
    rw [getD_append_offset]
    simp [List.getD, List.getElem?_append_left
      (by omega : len < payload.length)]
  -- step 2: the inner skip_whitespace stops at once too
  have h4 : skip_whitespace B (7 + len) = .ok (7 + len) := by
    refine skip_whitespace_stop B (7 + len) (by omega) ?_ ?_
    · rw [hgd]; exact hpc
    · rw [hgd]; exact hc
  -- the tail of the buffer from 7 + len on
  have hdrop :
      B.drop (7 + len) = payload.drop len ++ (bs "endstream" ++ post) := by
    rw [hBassoc]
    rw [show (7 : Nat) + len = (bs "stream" ++ [10]).length + len from by
      rw [h7eq]]
    rw [List.drop_append]
    rw [List.drop_append_of_le_length (by omega)]
  -- the nine bytes at the cursor are not the marker
  have hslice9 : pySlice B (7 + len) (7 + len + 9) ≠ bs "endstream" := by
    unfold pySlice
    rw [List.drop_take]
    rw [show 7 + len + 9 - (7 + len) = 9 from by omega, hdrop]
    intro hctr
    refine hnom len (le_refl len) hlt ?_
    rw [List.isPrefixOf_iff_prefix, List.prefix_iff_eq_take]
    exact hctr.symm
  -- the first marker occurrence is at the payload's end
  have hfind : pyFind B (bs "endstream") ((7 + len : Nat) : Int)
      = ((7 + payload.length : Nat) : Int) := by
    have hs : (if ((7 + len : Nat) : Int) < 0
        then (((7 + len : Nat) : Int) + B.length).toNat
        else ((7 + len : Nat) : Int).toNat) = 7 + len := by
      rw [if_neg (by omega)]
      omega
    simp only [pyFind, hs]
    rw [if_neg (by omega)]
    rw [hdrop]
    rw [findGo_first (bs "endstream") (by decide) (payload.length - len) _ _
      ?noneBefore ?atEnd]
    · push_cast
      omega
    case noneBefore =>
      intro j hjm
      rw [List.drop_append_of_le_length (by simp; omega)]
      rw [List.drop_drop]
      exact hnom (len + j) (by omega) (by omega)
    case atEnd =>
      rw [show payload.length - len = (payload.drop len).length from by simp]
      rw [List.drop_left]
      rw [List.isPrefixOf_iff_prefix]
      exact List.prefix_append (bs "endstream") post
  -- the declared-length slice is the payload prefix
  have hsliceP : pySlice B 7 (7 + len) = payload.take len := by
    rw [hBassoc]
    have hsh := pySlice_append_shift (bs "stream" ++ [10])
      (payload ++ (bs "endstream" ++ post)) 0 len
    rw [h7eq] at hsh
    rw [show pySlice ((bs "stream" ++ [10]) ++ (payload ++ (bs "endstream" ++ post)))
          7 (7 + len)
        = pySlice (payload ++ (bs "endstream" ++ post)) 0 len from by
      simpa using hsh]
    unfold pySlice
    simp [List.take_append_of_le_length (le_of_lt hlt)]
  -- assemble
  unfold read_stream
  rw [h1]
  simp only [Bind.bind, Except.bind]
  rw [if_neg (by
    rw [show (pySlice B 0 (0 + 6) != bs "stream") = false from rfl]
    simp)]
  rw [show (pySlice B (0 + 6) (0 + 6 + 2) == [13, 10]) = false from rfl]
  simp only [Bool.false_eq_true, if_false]
  rw [show pyIndex B (0 + 6) = .ok 10 from rfl]
  simp only [Bind.bind, Except.bind]
  rw [if_pos (by decide)]
  simp only [pure, Except.pure]
  rw [if_neg (by simp only [beq_iff_eq]; omega)]
  rw [if_neg (by omega)]
  simp only [Int.toNat_natCast]
  rw [show (0 : Nat) + 6 + 1 = 7 from by omega]
  rw [h4]
  simp only [Bind.bind, Except.bind]
  rw [if_neg (by simpa using hslice9)]
  rw [hfind]
  rw [if_pos (by omega)]
  simp only [Int.toNat_natCast]
  rw [hsliceP]
  rw [show ((7 + payload.length : Nat) : Int) - ((7 + len : Nat) : Int)
      = (payload.length : Int) - (len : Int) from by push_cast; ring]
  simp

/-- Witness for C9 (amended): payload `ABCDE`, declared length 3. -/
theorem c9_undercount_witness :
    (0 : Nat) < 3 ∧ (3 : Nat) < (bs "ABCDE").length
    ∧ read_stream (bs "stream" ++ ([10] ++ (bs "ABCDE" ++ (bs "endstream" ++ bs " x"))))
        0 (3 : Int)
      = .ok (bs "ABC", (7 + 3) + (7 + 5),
          ["incorrect stream length (off by "
            ++ fmtInt (((bs "ABCDE").length : Int) - (3 : Int))
            ++ " bytes at pos " ++ fmtNat (7 + 3) ++ ")"]) := by
  refine ⟨by decide, by decide, ?_⟩
  have h := c9_undercount_read_stream (bs "ABCDE") (bs " x") 3
    (by decide) (by decide) (by decide) (by decide)
    (by
      intro j h1 h2
      have h3 : j < 5 := by simpa using h2
      interval_cases j <;> decide)
  simpa using h

/-! ### C3: the first definition encountered for an identifier wins -/

/-- Peeling an `Except` bind that succeeded. -/
theorem exceptBindOk {e a b : Type} {x : Except e a} {f : a → Except e b}
    {r : b} (h : x >>= f = .ok r) : ∃ v, x = .ok v ∧ f v = .ok r := by
  cases x with
  | error err => simp [Bind.bind, Except.bind] at h
  | ok v => exact ⟨v, rfl, by simpa [Bind.bind, Except.bind] using h⟩

/-- A failed computation bound into a continuation never succeeds. -/
theorem exceptErrBind {e a b : Type} {err : e} {f : a → Except e b} {r : b}
    (h : Except.error err >>= f = .ok r) : False := by
  simp [Bind.bind, Except.bind] at h

/-- A lookup that succeeds is unaffected by appending entries. -/
theorem idDictFind_append_left {α : Type} (t u : List (ID × α)) (k : ID)
    (v : α) (h : idDictFind t k = some v) :
    idDictFind (t ++ u) k = some v := by
  unfold idDictFind at h ⊢
  rw [List.find?_append]
  rcases hf : List.find? (fun p : ID × α => idEq p.1 k) t with _ | p
  · rw [hf] at h; simp at h
  · rw [hf] at h
    simpa [Option.orElse] using h

/-- The per-entry loop of `parse_old_xref` only ever appends, and only
identifiers not yet present: a live lookup survives it. -/
theorem oldXrefEntries_preserves (k : ID) (v : Loc) :
    ∀ (num : Nat) (s : PDFState) (start i : Int) (lines : List ByteStr)
      (s2 : PDFState) (rest : List ByteStr),
      oldXrefEntries s start num i lines = .ok (s2, rest) →
      idDictFind s.xref k = some v → idDictFind s2.xref k = some v := by
  intro num
  induction num with
  | zero =>
      intro s start i lines s2 rest h hk
      rw [oldXrefEntries] at h
      cases h
      exact hk
  | succ n ih =>
      intro s start i lines s2 rest h hk
      cases lines with
      | nil =>
          rw [oldXrefEntries] at h
          exact absurd h (by simp)
      | cons line lrest =>
          rw [oldXrefEntries] at h
          split at h
          · exact absurd h (by simp)
          · rcases h0 : pyInt ((splitClassRun wsChar line).getD 0 []) with _ | offv
            · rw [h0] at h
              simp [Bind.bind, Except.bind] at h
            · rw [h0] at h
              rcases h1 : pyInt ((splitClassRun wsChar line).getD 1 []) with _ | genv
              · rw [h1] at h
                simp [Bind.bind, Except.bind, pure, Except.pure] at h
              · rw [h1] at h
                simp only [pure_bind] at h
                refine ih _ start (i + 1) lrest s2 rest h ?_
                split
                · split
                  · exact hk
                  · exact idDictFind_append_left _ _ _ _ hk
                · exact hk

/-- The subsection loop of `parse_old_xref` preserves live lookups. -/
theorem oldXrefSections_preserves (k : ID) (v : Loc) (allLen : Nat) :
    ∀ (fuel : Nat) (s : PDFState) (lines : List ByteStr) (s2 : PDFState),
      oldXrefSections allLen fuel s lines = .ok s2 →
      idDictFind s.xref k = some v → idDictFind s2.xref k = some v := by
  intro fuel
  induction fuel with
  | zero =>
      intro s lines s2 h hk
      rw [oldXrefSections] at h
      exact absurd h (by simp)
  | succ n ih =>
      intro s lines s2 h hk
      cases lines with
      | nil =>
          rw [oldXrefSections] at h
          cases h
          exact hk
      | cons hdr rest =>
          rw [oldXrefSections] at h
          split at h
          · exact absurd h (by simp)
          · rcases h0 : pyInt ((splitClassRun wsChar hdr).getD 0 []) with _ | startv
            · rw [h0] at h
              simp [Bind.bind, Except.bind] at h
            · rw [h0] at h
              rcases h1 : pyInt ((splitClassRun wsChar hdr).getD 1 []) with _ | numv
              · rw [h1] at h
                simp [Bind.bind, Except.bind, pure, Except.pure] at h
              · rw [h1] at h
                simp only [pure_bind] at h
                split at h
                · exact absurd h (by simp)
                · obtain ⟨⟨s3, rest2⟩, hent, h⟩ := exceptBindOk h
                  dsimp only [] at h
                  exact ih s3 rest2 s2 h
                    (oldXrefEntries_preserves k v _ s startv 0 rest s3 rest2
                      hent hk)

/-- `parse_old_xref` preserves live lookups: a later (older-revision)
classic table never overwrites a recorded location. -/
theorem parse_old_xref_preserves (k : ID) (v : Loc) (s : PDFState)
    (pos0 : Int) (s2 : PDFState) (t : Int)
    (h : RawPDF.parse_old_xref s pos0 = .ok (s2, t))
    (hk : idDictFind s.xref k = some v) :
    idDictFind s2.xref k = some v := by
  unfold RawPDF.parse_old_xref at h
  obtain ⟨c, _, h⟩ := exceptBindOk h
  simp only [pure_bind] at h
  split at h
  all_goals try exact Except.noConfusion h
  all_goals try split at h
  all_goals try exact Except.noConfusion h
  all_goals try split at h
  all_goals try exact Except.noConfusion h
  all_goals try split at h
  all_goals try exact Except.noConfusion h
  all_goals try split at h
  all_goals try exact Except.noConfusion h
  all_goals try split at h
  all_goals try exact Except.noConfusion h
  all_goals try split at h
  all_goals try exact Except.noConfusion h
  all_goals try split at h
  all_goals try exact Except.noConfusion h
  all_goals try dsimp only [] at h
  all_goals obtain ⟨s3, hsec, h⟩ := exceptBindOk h
  all_goals try dsimp only [] at h
  all_goals rw [Except.ok.injEq, Prod.mk.injEq] at h
  all_goals exact h.1 ▸ oldXrefSections_preserves k v _ _ _ _ _ hsec hk

/-- One row insertion of `parse_new_xref` preserves live lookups. -/
theorem newXrefInsert_preserves (k : ID) (v : Loc) (s : PDFState)
    (start i : Int) (row : List Nat) (s2 : PDFState)
    (h : newXrefInsert s start i row = .ok s2)
    (hk : idDictFind s.xref k = some v) :
    idDictFind s2.xref k = some v := by
  unfold newXrefInsert at h
  rcases hr0 : row.get? 0 with _ | r0 <;> rw [hr0] at h
  · exact (exceptErrBind h).elim
  · simp only [pure_bind] at h
    split at h
    all_goals try exact (exceptErrBind h).elim
    all_goals try split at h
    all_goals try exact (exceptErrBind h).elim
    all_goals try split at h
    all_goals try exact (exceptErrBind h).elim
    all_goals try split at h
    all_goals try exact (exceptErrBind h).elim
    all_goals try split at h
    all_goals try exact (exceptErrBind h).elim
    all_goals try split at h
    all_goals try exact (exceptErrBind h).elim
    all_goals try split at h
    all_goals try exact (exceptErrBind h).elim
    all_goals try split at h
    all_goals first
    | exact (exceptErrBind h).elim
    | (cases h; exact hk)
    | (cases h; exact idDictFind_append_left _ _ _ _ hk)

/-- The row loop of one `/Index` pair preserves live lookups. -/
theorem newXrefRows_preserves (k : ID) (v : Loc) (data : ByteStr)
    (w : List PyVal) (start : Int) :
    ∀ (n : Nat) (i : Int) (pos : Nat) (s : PDFState) (s2 : PDFState)
      (pos2 : Nat), newXrefRows data w start n i pos s = .ok (s2, pos2) →
      idDictFind s.xref k = some v → idDictFind s2.xref k = some v := by
  intro n
  induction n with
  | zero =>
      intro i pos s s2 pos2 h hk
      rw [newXrefRows] at h
      cases h
      exact hk
  | succ m ih =>
      intro i pos s s2 pos2 h hk
      rw [newXrefRows] at h
      obtain ⟨⟨row, posB⟩, _, h⟩ := exceptBindOk h
      dsimp only [] at h
      obtain ⟨s3, hins, h⟩ := exceptBindOk h
      exact ih (i + 1) posB s3 s2 pos2 h
        (newXrefInsert_preserves k v s start i row s3 hins hk)

/-- The `/Index` pair loop preserves live lookups. -/
theorem newXrefPairs_preserves (k : ID) (v : Loc) (data : ByteStr)
    (w : List PyVal) :
    ∀ (pairs : List (PyVal × PyVal)) (pos : Nat) (s s2 : PDFState),
      newXrefPairs data w pairs pos s = .ok s2 →
      idDictFind s.xref k = some v → idDictFind s2.xref k = some v := by
  intro pairs
  induction pairs with
  | nil =>
      intro pos s s2 h hk
      rw [newXrefPairs] at h
      cases h
      exact hk
  | cons pr rest ih =>
      intro pos s s2 h hk
      obtain ⟨sv, zv⟩ := pr
      cases sv
      all_goals cases zv
      all_goals simp only [newXrefPairs, pure_bind] at h
      all_goals try exact (exceptErrBind h).elim
      all_goals obtain ⟨⟨s3, pos2⟩, hrows, h⟩ := exceptBindOk h
      all_goals try dsimp only [] at h
      all_goals exact ih pos2 s3 s2 h (newXrefRows_preserves k v data w _ _ 0 pos s s3 pos2 hrows hk)

/-- Reading an object at a plain byte offset leaves the state untouched
(a fresh `Reader` works on the byte buffer alone). -/
theorem read_object_int_same_state
    (zinf : ByteStr → Except String ByteStr) (fuel : Nat) (s : PDFState)
    (n : Int) (id : Option ID) (dt : Option ByteStr) (s2 : PDFState)
    (o : PDFObj)
    (h : RawPDF.read_object zinf fuel s (.int n) id dt = .ok (s2, o)) :
    s2 = s := by
  unfold RawPDF.read_object at h
  obtain ⟨⟨s3, r⟩, h1, h2⟩ := exceptBindOk h
  rw [resolveGo] at h1
  split at h1
  · exact absurd h1 (by simp)
  · obtain ⟨⟨o2, p⟩, _, h1⟩ := exceptBindOk h1
    dsimp only [] at h1
    cases h1
    dsimp only [] at h2
    cases h2
    rfl

/-- `parse_new_xref` preserves live lookups: a later (older-revision)
cross-reference stream never overwrites a recorded location. -/
theorem parse_new_xref_preserves
    (zinf : ByteStr → Except String ByteStr) (fuel : Nat) (k : ID)
    (v : Loc) (s : PDFState) (pos : Int) (s2 : PDFState) (d : PyVal)
    (h : RawPDF.parse_new_xref zinf fuel s pos = .ok (s2, d))
    (hk : idDictFind s.xref k = some v) :
    idDictFind s2.xref k = some v := by
  unfold RawPDF.parse_new_xref at h
  obtain ⟨⟨s1, obj0⟩, h1, h⟩ := exceptBindOk h
  have hs1 : s1 = s := read_object_int_same_state zinf _ s pos
    Option.none Option.none s1 obj0 h1
  have hk1 : idDictFind s1.xref k = some v := by rw [hs1]; exact hk
  try dsimp only [] at h
  obtain ⟨obj, _, h⟩ := exceptBindOk h
  obtain ⟨dd, _, h⟩ := exceptBindOk h
  rcases hIdx : dictMem dd (bs "/Index") <;> rw [hIdx] at h
  case false =>
    rw [if_neg (show ¬(false = true) by decide)] at h
    obtain ⟨sz, _, h⟩ := exceptBindOk h
    simp only [pure_bind] at h
    rcases hc2 : ([PyVal.int 0, sz].length % 2 != 0) <;> rw [hc2] at h
    case true => exact Except.noConfusion (if_pos rfl ▸ h)
    case false =>
      rw [if_neg (show ¬(false = true) by decide)] at h
      rcases hW : !dictMem dd (bs "/W") <;> rw [hW] at h
      case true => exact Except.noConfusion (if_pos rfl ▸ h)
      case false =>
        rw [if_neg (show ¬(false = true) by decide)] at h
        obtain ⟨wv, _, h⟩ := exceptBindOk h
        rcases wv with _ | _ | _ | _ | _ | _ | warr | _ | _
        all_goals try exact (exceptErrBind h).elim
        simp only [pure_bind] at h
        rcases hst : obj.stream with _ | data <;> rw [hst] at h
        case none => exact (exceptErrBind h).elim
        case some =>
          simp only [pure_bind] at h
          obtain ⟨s3, hpairs, h⟩ := exceptBindOk h
          try dsimp only [] at h
          rw [Except.ok.injEq, Prod.mk.injEq] at h
          exact h.1 ▸ newXrefPairs_preserves k v _ _ _ 0 s1 _ hpairs hk1
  case true =>
    rw [if_pos rfl] at h
    obtain ⟨index, _, h⟩ := exceptBindOk h
    try dsimp only [] at h
    rcases index with _ | _ | _ | _ | _ | _ | ilist | _ | _
    all_goals try exact (exceptErrBind h).elim
    simp only [pure_bind] at h
    rcases hc2 : (ilist.length % 2 != 0) <;> rw [hc2] at h
    case true => exact Except.noConfusion (if_pos rfl ▸ h)
    case false =>
      rw [if_neg (show ¬(false = true) by decide)] at h
      rcases hW : !dictMem dd (bs "/W") <;> rw [hW] at h
      case true => exact Except.noConfusion (if_pos rfl ▸ h)
      case false =>
        rw [if_neg (show ¬(false = true) by decide)] at h
        obtain ⟨wv, _, h⟩ := exceptBindOk h
        rcases wv with _ | _ | _ | _ | _ | _ | warr | _ | _
        all_goals try exact (exceptErrBind h).elim
        simp only [pure_bind] at h
        rcases hst : obj.stream with _ | data <;> rw [hst] at h
        case none => exact (exceptErrBind h).elim
        case some =>
          simp only [pure_bind] at h
          obtain ⟨s3, hpairs, h⟩ := exceptBindOk h
          try dsimp only [] at h
          rw [Except.ok.injEq, Prod.mk.injEq] at h
          exact h.1 ▸ newXrefPairs_preserves k v _ _ _ 0 s1 _ hpairs hk1

/-- **C3.** When the `/Prev`-chained cross-reference sections are parsed
most recent first, the first definition encountered for an identifier
wins: an identifier whose location is already recorded in the table keeps
that recorded location across a later call to either the classic-table
parser (`parse_old_xref`) or the cross-reference-stream parser
(`parse_new_xref`); a later, older definition never overwrites it. -/
theorem c3_first_definition_wins
    (zinf : ByteStr → Except String ByteStr) (fuel : Nat)
    (s : PDFState) (pos : Int) (k : ID) (v : Loc)
    (hk : idDictFind s.xref k = some v) :
    (∀ s2 t, RawPDF.parse_old_xref s pos = .ok (s2, t) →
      idDictFind s2.xref k = some v) ∧
    (∀ s2 d, RawPDF.parse_new_xref zinf fuel s pos = .ok (s2, d) →
      idDictFind s2.xref k = some v) :=
  ⟨fun s2 t h => parse_old_xref_preserves k v s pos s2 t h hk,
   fun s2 d h => parse_new_xref_preserves zinf fuel k v s pos s2 d h hk⟩

/-- A classic xref table whose first subsection redefines object 1, run
against a state that already records object 1 (stored under generation 5,
as a most-recent revision would have left it). -/
def c3oldBuf : ByteStr :=
  bs "xref
1 2
0000000005 00000 n 
0000000030 00000 n 
trailer
<< /Size 3 >>"

def c3oldState : PDFState :=
  { freshState c3oldBuf with xref := [(⟨1, 5⟩, .int 99)] }

/-- An uncompressed cross-reference stream (`/W [1 1 1]`, two type-1
rows for objects 0 and 1), against a state already recording object 1. -/
def c3newBuf : ByteStr :=
  bs "5 0 obj << /W [ 1 1 1 ] /Size 2 /Length 6 >> stream
" ++
    ([1, 20, 0, 1, 30, 0] ++ bs "
endstream endobj")

def c3newState : PDFState :=
  { freshState c3newBuf with xref := [(⟨1, 7⟩, .int 99)] }

theorem c3_first_definition_wins_witness :
    idDictFind c3oldState.xref ⟨1, 0⟩ = some (Loc.int 99) ∧
    idDictFind c3newState.xref ⟨1, 0⟩ = some (Loc.int 99) ∧
    (∀ s2 t, RawPDF.parse_old_xref c3oldState 0 = .ok (s2, t) →
      idDictFind s2.xref ⟨1, 0⟩ = some (Loc.int 99)) ∧
    (∀ s2 d, RawPDF.parse_new_xref zlibStub 50 c3newState 0 = .ok (s2, d) →
      idDictFind s2.xref ⟨1, 0⟩ = some (Loc.int 99)) :=
  ⟨rfl, rfl,
   (c3_first_definition_wins zlibStub 50 c3oldState 0 ⟨1, 0⟩
     (Loc.int 99) rfl).1,
   (c3_first_definition_wins zlibStub 50 c3newState 0 ⟨1, 0⟩
     (Loc.int 99) rfl).2⟩

/-- Both parses of the witness inputs actually succeed, keep the
recorded location of object 1 and append only the new identifiers. -/
theorem c3_parses_succeed :
    Except.map (fun p => p.1.xref) (RawPDF.parse_old_xref c3oldState 0) =
      .ok [(⟨1, 5⟩, .int 99), (⟨2, 0⟩, .int 30)] ∧
    Except.map (fun p => p.1.xref)
        (RawPDF.parse_new_xref zlibStub 50 c3newState 0) =
      .ok [(⟨1, 7⟩, .int 99), (⟨0, 0⟩, .int 20)] := by
  constructor
  · rfl
  · rfl

/-! ### C4: fallback to full-file reconstruction -/

/-- Forcing `RawPDF.objects()` on a load result: the resolved object set
an inspection of the document sees. -/
def resolvedObjects (zinf : ByteStr → Except String ByteStr) (fuel : Nat)
    (r : Except PyErr PDFState) : Except PyErr (List PDFObj) :=
  match r with
  | .error e => .error e
  | .ok s => Except.map (fun p => p.2) (RawPDF.objects zinf fuel s)

/-- Once the incremental attempt dies with the malformed-PDF error, the
`read_root` loop's outcome no longer depends on where `startxref`
pointed: `parse_xref` discards the error and reconstructs. -/
theorem read_root_loop_malformed_irrelevant
    (zinf : ByteStr → Except String ByteStr) (fuel : Nat) (s : PDFState)
    (pos1 pos2 : Int) (r i e f : PyVal) (m1 m2 : String)
    (h1 : RawPDF.parse_xref_attempt zinf fuel s pos1 =
      .error (.malformed m1))
    (h2 : RawPDF.parse_xref_attempt zinf fuel s pos2 =
      .error (.malformed m2)) :
    RawPDF.read_root_loop zinf (fuel + 1) s pos1 r i e f =
      RawPDF.read_root_loop zinf (fuel + 1) s pos2 r i e f := by
  rw [RawPDF.read_root_loop, RawPDF.read_root_loop]
  have hx : RawPDF.parse_xref zinf fuel s pos1 =
      RawPDF.parse_xref zinf fuel s pos2 := by
    unfold RawPDF.parse_xref
    rw [h1, h2]
  rw [hx]

/-- Two trailers, both with `/Root`; the first one starts at byte 0, the
second at byte 26. -/
def c4twoTrailers : ByteStr :=
  bs "trailer << /Root 1 0 R >>\x0atrailer << /Root 2 0 R >>"

/-- **C4, counterexample.**  Corrupting `startxref` to the *arbitrary*
byte `fOfs1` — the start of object 1 — does not fall back to
reconstruction: the bytes there match the object-header pattern, so the
engine parses the catalog as a cross-reference stream and the `KeyError`
for its missing `/Size` escapes `parse_xref` (which catches only the
malformed-PDF error), failing the whole load even though the uncorrupted
file loads fine.  Also, reconstruction returns the *first* trailer
dictionary containing `/Root` (position 0+7), not the last. -/
theorem c4_counterexample :
    rawLoadFrom zlibStub 1000 fileF ((fOfs1 : Nat) : Int) =
      .error (.keyError "/Size") ∧
    Except.map PDFState.xref (rawLoad zlibStub 1000 fileF) =
      .ok [(⟨1, 0⟩, .int (fOfs1 : Int)), (⟨2, 0⟩, .int (fOfs2 : Int)),
        (⟨3, 0⟩, .int (fOfs3 : Int))] ∧
    Except.map (fun p => p.2)
        (RawPDF.reconstruct_xref 100 (freshState c4twoTrailers)) =
      .ok 7 ∧
    trailerFinditer c4twoTrailers = [0, 26] := by
  refine ⟨?_, ?_, ?_, ?_⟩
  · rfl
  · rfl
  · rfl
  · rfl

/-- The reconstruction load of `fileF` (startxref target `-1`, which no
section matcher accepts) marks the table broken and resolves exactly the
objects of the ordinary load. -/
theorem c4_recon_load_agrees :
    Except.map PDFState.xrefType (rawLoadFrom zlibStub 1000 fileF (-1)) =
      .ok (some "broken") ∧
    resolvedObjects zlibStub 2000 (rawLoadFrom zlibStub 1000 fileF (-1)) =
      resolvedObjects zlibStub 2000 (rawLoad zlibStub 1000 fileF) := by
  constructor
  · rfl
  · rfl

/-- **C4.**  (Amended: the fallback fires exactly on the malformed-PDF
error.)  For every corrupted `startxref` target whose incremental parse
attempt fails with the malformed-PDF error, the load falls back to
full-file reconstruction — the result does not depend on the corrupted
target at all, the table is marked `"broken"`, and the resolved object
set equals that of the uncorrupted file. -/
theorem c4_reconstruction_fallback (pos : Int) (m : String)
    (hatt : incrementalAttempt zlibStub 999 fileF pos =
      .error (.malformed m)) :
    rawLoadFrom zlibStub 1000 fileF pos =
      rawLoadFrom zlibStub 1000 fileF (-1) ∧
    Except.map PDFState.xrefType (rawLoadFrom zlibStub 1000 fileF pos) =
      .ok (some "broken") ∧
    resolvedObjects zlibStub 2000 (rawLoadFrom zlibStub 1000 fileF pos) =
      resolvedObjects zlibStub 2000 (rawLoad zlibStub 1000 fileF) := by
  have hH : readHeader (freshState fileF) = .ok (freshState fileF) := by rfl
  have hA : RawPDF.parse_xref_attempt zlibStub 999 (freshState fileF) pos =
      .error (.malformed m) := by
    have h0 := hatt
    unfold incrementalAttempt at h0
    rw [hH] at h0
    simpa [Bind.bind, Except.bind] using h0
  have hB : RawPDF.parse_xref_attempt zlibStub 999 (freshState fileF) (-1) =
      .error (.malformed "bad startxref pointer") := by rfl
  have hEq : rawLoadFrom zlibStub 1000 fileF pos =
      rawLoadFrom zlibStub 1000 fileF (-1) :=
    read_root_loop_malformed_irrelevant zlibStub 999 (freshState fileF)
      pos (-1) .none .none .none .none m "bad startxref pointer" hA hB
  refine ⟨hEq, ?_, ?_⟩
  · rw [hEq]
    exact c4_recon_load_agrees.1
  · rw [hEq]
    exact c4_recon_load_agrees.2

theorem c4_reconstruction_fallback_witness :
    incrementalAttempt zlibStub 999 fileF 0 =
      .error (.malformed "bad startxref pointer") ∧
    (rawLoadFrom zlibStub 1000 fileF 0 =
        rawLoadFrom zlibStub 1000 fileF (-1) ∧
      Except.map PDFState.xrefType (rawLoadFrom zlibStub 1000 fileF 0) =
        .ok (some "broken") ∧
      resolvedObjects zlibStub 2000 (rawLoadFrom zlibStub 1000 fileF 0) =
        resolvedObjects zlibStub 2000 (rawLoad zlibStub 1000 fileF)) :=
  ⟨by rfl, c4_reconstruction_fallback 0 "bad startxref pointer" (by rfl)⟩

/-! ### C10: the inspection enumerations and the object cache -/

/-- A table location that is a plain byte offset. -/
def isIntLoc : Loc → Bool
  | .int _ => true
  | .streamRef _ _ => false

/-- Every location in the table is a plain byte offset. -/
def intLocs (t : List (ID × Loc)) : Bool := t.all (fun p => isIntLoc p.2)

/-- The `/Width` entry of an object's dictionary (`None` when absent). -/
def widthOf (o : PDFObj) : PyVal :=
  match o.d with
  | .dict d => pdfDictGetD d (bs "/Width") .none
  | _ => .none

/-- Reading at a plain byte offset is a fresh `Reader` run over the byte
buffer: the state passes through, and only `bytes` and the encryption
flag enter the result. -/
theorem read_object_int_eval (zinf : ByteStr → Except String ByteStr)
    (fuel : Nat) (s : PDFState) (n : Int) (id : Option ID)
    (dt : Option ByteStr) :
    RawPDF.read_object zinf fuel s (.int n) id dt =
      if n < 0 then .error (.valueError "negative offset not modelled")
      else Except.map (fun p => (s, p.1))
        (Reader.read_object s.bytes (s.bytes.length + 16) n.toNat
          (s.encrypt.isSome) dt) := by
  unfold RawPDF.read_object
  rw [resolveGo]
  split
  · rfl
  · rcases hr : Reader.read_object s.bytes (s.bytes.length + 16) n.toNat
        (s.encrypt.isSome) dt with e | p
    · rfl
    · obtain ⟨o, rest⟩ := p
      rfl

/-- Over an all-offset table the enumeration loop never consults the
cache: two states sharing bytes and encryption flag yield the same
objects. -/
theorem objectsGo_cacheless (zinf : ByteStr → Except String ByteStr)
    (fuel : Nat) :
    ∀ (xs : List (ID × Loc)) (sA sB : PDFState) (acc : List PDFObj),
      sA.bytes = sB.bytes → sA.encrypt = sB.encrypt → intLocs xs = true →
      Except.map (fun p => p.2) (objectsGo zinf fuel xs sA acc) =
        Except.map (fun p => p.2) (objectsGo zinf fuel xs sB acc) := by
  intro xs
  induction xs with
  | nil =>
      intro sA sB acc hb he hi
      rfl
  | cons p rest ih =>
      intro sA sB acc hb he hi
      obtain ⟨id, loc⟩ := p
      cases loc with
      | streamRef cid idx => simp [intLocs, isIntLoc] at hi
      | int n =>
          have hi2 : intLocs rest = true := by
            simpa [intLocs, isIntLoc] using hi
          rw [objectsGo, objectsGo]
          rcases ht : locTruthy (Loc.int n) with _ | _
          · exact ih sA sB acc hb he hi2
          · rw [read_object_int_eval, read_object_int_eval, hb, he]
            split
            · next hcontra => exact absurd hcontra (by decide)
            · split
              · rfl
              · rcases hR : Reader.read_object sB.bytes
                    (sB.bytes.length + 16) n.toNat (sB.encrypt.isSome)
                    Option.none with e | q
                · rfl
                · obtain ⟨o, rest2⟩ := q
                  exact ih sA sB (acc ++ [o]) hb he hi2

/-- A lockstep `objects()` enumeration induces lockstep `images()`. -/
theorem images_map_congr (zinf : ByteStr → Except String ByteStr)
    (fuel : Nat) (sA sB : PDFState)
    (hm : Except.map (fun p => p.2) (RawPDF.objects zinf fuel sA) =
      Except.map (fun p => p.2) (RawPDF.objects zinf fuel sB)) :
    Except.map (fun p => p.2) (RawPDF.images zinf fuel sA) =
      Except.map (fun p => p.2) (RawPDF.images zinf fuel sB) := by
  unfold RawPDF.images RawPDF.objects_of_subtype
  rcases hA : RawPDF.objects zinf fuel sA with eA | pA <;>
    rcases hB : RawPDF.objects zinf fuel sB with eB | pB <;>
    rw [hA, hB] at hm <;> simp [Except.map] at hm
  · rw [hm]
  · obtain ⟨s2A, osA⟩ := pA
    obtain ⟨s2B, osB⟩ := pB
    try dsimp only [] at hm
    rw [hm]
    rfl

/-- **C10.**  The inspection enumerations walk the table and skip falsy
(zero) locations, so an object allocated by `create_object` or
`add_object` — both register location `0` — never appears; and over a
table of plain byte offsets they re-parse every object from the byte
buffer, so differing caches are invisible to `objects()` and
`images()`.  (The cache is *not* bypassed for object-stream locations —
see the counterexample.) -/
theorem c10_enumerations (zinf : ByteStr → Except String ByteStr) :
    (∀ (s : PDFState) (type subtype : Option ByteStr),
      idDictFind (RawPDF.create_object s type subtype).1.xref
        ⟨s.nextObjectId + 1, 0⟩ = some (Loc.int 0)) ∧
    (∀ (s : PDFState) (o : PDFObj),
      idDictFind (RawPDF.add_object s o).1.xref
        ⟨s.nextObjectId + 1, 0⟩ = some (Loc.int 0)) ∧
    (∀ (fuel : Nat) (id : ID) (loc : Loc) (rest : List (ID × Loc))
      (s : PDFState) (acc : List PDFObj), locTruthy loc = false →
      objectsGo zinf fuel ((id, loc) :: rest) s acc =
        objectsGo zinf fuel rest s acc) ∧
    (∀ (fuel : Nat) (sA sB : PDFState), sA.bytes = sB.bytes →
      sA.encrypt = sB.encrypt → sA.xref = sB.xref →
      intLocs sA.xref = true →
      Except.map (fun p => p.2) (RawPDF.objects zinf fuel sA) =
        Except.map (fun p => p.2) (RawPDF.objects zinf fuel sB)) ∧
    (∀ (fuel : Nat) (sA sB : PDFState), sA.bytes = sB.bytes →
      sA.encrypt = sB.encrypt → sA.xref = sB.xref →
      intLocs sA.xref = true →
      Except.map (fun p => p.2) (RawPDF.images zinf fuel sA) =
        Except.map (fun p => p.2) (RawPDF.images zinf fuel sB)) := by
  have hobjs : ∀ (fuel : Nat) (sA sB : PDFState), sA.bytes = sB.bytes →
      sA.encrypt = sB.encrypt → sA.xref = sB.xref →
      intLocs sA.xref = true →
      Except.map (fun p => p.2) (RawPDF.objects zinf fuel sA) =
        Except.map (fun p => p.2) (RawPDF.objects zinf fuel sB) := by
    intro fuel sA sB hb he hx hi
    unfold RawPDF.objects
    rw [hx]
    exact objectsGo_cacheless zinf fuel sB.xref sA sB [] hb he (hx ▸ hi)
  refine ⟨?_, ?_, ?_, hobjs, ?_⟩
  · intro s type subtype
    show idDictFind (idDictSet s.xref ⟨s.nextObjectId + 1, 0⟩ (Loc.int 0))
      ⟨s.nextObjectId + 1, 0⟩ = some (Loc.int 0)
    exact idDictFind_idDictSet_same _ _ _ _ rfl
  · intro s o
    show idDictFind (idDictSet s.xref ⟨s.nextObjectId + 1, 0⟩ (Loc.int 0))
      ⟨s.nextObjectId + 1, 0⟩ = some (Loc.int 0)
    exact idDictFind_idDictSet_same _ _ _ _ rfl
  · intro fuel id loc rest s acc hf
    rw [objectsGo, hf]
    rfl
  · intro fuel sA sB hb he hx hi
    exact images_map_congr zinf fuel sA sB (hobjs fuel sA sB hb he hx hi)

/-- An object-stream container on disk (`/Width 1` inside), a table that
reaches object 5 through it, and a cache holding a mutated copy of the
container (`/Width 2`). -/
def c10buf : ByteStr :=
  bs "x\x0a1 0 obj << /N 1 /First 8 >>\x0astream\x0a5 0     << /Width 1 >>\x0aendstream endobj"

def c10xref : List (ID × Loc) :=
  [(⟨1, 0⟩, .int 2), (⟨5, 0⟩, .streamRef ⟨1, 0⟩ 0)]

def c10s1 : PDFState := { freshState c10buf with xref := c10xref }

def c10container2 : PDFObj :=
  mkDictObject (some ⟨1, 0⟩)
    (.dict [(bs "/N", .int 1), (bs "/First", .int 8)])
    (some (bs "5 0     << /Width 2 >>\x0a")) false

def c10s2 : PDFState := { c10s1 with cache := [(⟨1, 0⟩, c10container2)] }

/-- Int-location states for the witness: same bytes and table, caches
empty versus populated. -/
def c10intS1 : PDFState :=
  { freshState c10buf with xref := [(⟨1, 0⟩, .int 2)] }

def c10intS2 : PDFState := { c10intS1 with cache := [(⟨1, 0⟩, c10container2)] }

theorem c10_enumerations_witness :
    idDictFind (RawPDF.create_object (freshState []) Option.none
        Option.none).1.xref ⟨1, 0⟩ = some (Loc.int 0) ∧
    idDictFind (RawPDF.add_object (freshState []) c10container2).1.xref
      ⟨1, 0⟩ = some (Loc.int 0) ∧
    objectsGo zlibStub 5 [(⟨9, 0⟩, Loc.int 0)] (freshState []) [] =
      objectsGo zlibStub 5 [] (freshState []) [] ∧
    Except.map (fun p => p.2) (RawPDF.objects zlibStub 50 c10intS1) =
      Except.map (fun p => p.2) (RawPDF.objects zlibStub 50 c10intS2) ∧
    Except.map (fun p => p.2) (RawPDF.images zlibStub 50 c10intS1) =
      Except.map (fun p => p.2) (RawPDF.images zlibStub 50 c10intS2) :=
  ⟨(c10_enumerations zlibStub).1 (freshState []) Option.none Option.none,
   (c10_enumerations zlibStub).2.1 (freshState []) c10container2,
   (c10_enumerations zlibStub).2.2.1 5 ⟨9, 0⟩ (Loc.int 0) [] (freshState [])
     [] rfl,
   (c10_enumerations zlibStub).2.2.2.1 50 c10intS1 c10intS2 rfl rfl rfl rfl,
   (c10_enumerations zlibStub).2.2.2.2 50 c10intS1 c10intS2 rfl rfl rfl rfl⟩

/-- **C10, counterexample.**  With object 5 located inside an object
stream, the enumeration resolves the container through the cache
(`get_object`), so an in-memory mutation of the cached container — here
`/Width` changed from 1 to 2 — *is* visible to `objects()`; the claim's
"bypassing the object cache ... any in-memory mutation of a cached
object is invisible" fails. -/
theorem c10_counterexample :
    Except.map (fun p => p.2.map widthOf) (RawPDF.objects zlibStub 50 c10s1)
      = .ok [PyVal.none, .int 1] ∧
    Except.map (fun p => p.2.map widthOf) (RawPDF.objects zlibStub 50 c10s2)
      = .ok [PyVal.none, .int 2] ∧
    Except.map (fun p => p.2.map widthOf) (RawPDF.objects zlibStub 50 c10s1)
      ≠ Except.map (fun p => p.2.map widthOf)
        (RawPDF.objects zlibStub 50 c10s2) := by
  have h1 : Except.map (fun p => p.2.map widthOf)
      (RawPDF.objects zlibStub 50 c10s1) = .ok [PyVal.none, .int 1] := by rfl
  have h2 : Except.map (fun p => p.2.map widthOf)
      (RawPDF.objects zlibStub 50 c10s2) = .ok [PyVal.none, .int 2] := by rfl
  refine ⟨h1, h2, ?_⟩
  intro hc
  rw [h1, h2] at hc
  simp at hc

end Pdf
